import Mathlib

/-!
Verification of the workflow orchestration engine of
`jerrynim/figma-ai-design-generator` (apps/claude-code-figma).

The TypeScript sources are shallowly embedded as executable Lean
definitions: JavaScript strings become `String` (operated on through
their `List Char` data), JS `Map`s become insertion-ordered association
lists, JS `Set`s become deduplicated lists, records with optional fields
become `structure`s with `Option` fields, and JS numbers occurring in the
control flow become `Nat`/`ℚ`.  External collaborator calls (the Claude
completion service, `JSON.parse` of model output, the TypeScript compiler
diagnostics) are inputs ("oracles") to the step functions; everything the
repository computes itself is embedded.
-/

namespace FigmaSpec

/-! ## JavaScript string primitives (over `List Char`) -/

/-- Left brace character (written via code point for hygiene). -/
def lbrace : Char := Char.ofNat 123

/-- Right brace character. -/
def rbrace : Char := Char.ofNat 125

/-- Boolean list-prefix test. -/
def isPrefixOfL [DecidableEq α] : List α → List α → Bool
  | [], _ => true
  | _ :: _, [] => false
  | a :: as, b :: bs => a = b && isPrefixOfL as bs

/-- Boolean list-infix test (needle first). -/
def isInfixOfL [DecidableEq α] (needle : List α) : List α → Bool
  | [] => isPrefixOfL needle []
  | b :: bs => isPrefixOfL needle (b :: bs) || isInfixOfL needle bs

/-- JS `haystack.includes(needle)`. -/
def strContains (s sub : String) : Bool :=
  isInfixOfL sub.data s.data

/-- JS `s.startsWith(p)`. -/
def strStartsWith (s p : String) : Bool :=
  isPrefixOfL p.data s.data

/-- JS `String.prototype.trim` on a character list. -/
def jsTrimL (cs : List Char) : List Char :=
  ((cs.dropWhile Char.isWhitespace).reverse.dropWhile Char.isWhitespace).reverse

/-- JS `s.trim()`. -/
def jsTrim (s : String) : String :=
  ⟨jsTrimL s.data⟩

/-- JS `s.toLowerCase()` (ASCII case folding). -/
def jsToLower (s : String) : String :=
  ⟨s.data.map Char.toLower⟩

/-- Split a character list at a separator character (JS `s.split(sep)`). -/
def splitOnCharL (sep : Char) : List Char → List (List Char)
  | [] => [[]]
  | c :: cs =>
    let r := splitOnCharL sep cs
    if c = sep then [] :: r
    else
      match r with
      | h :: t => (c :: h) :: t
      | [] => [[c]]

/-- JS `s.split("\n")`. -/
def splitLines (s : String) : List String :=
  (splitOnCharL '\n' s.data).map (fun cs => ⟨cs⟩)

/-- JS `parts.join(sep)`. -/
def joinSep (sep : String) : List String → String
  | [] => ""
  | [x] => x
  | x :: xs => x ++ sep ++ joinSep sep xs

/-- JS string-truthiness on an optional string: `undefined` and `""` are falsy. -/
def strT (o : Option String) : Option String :=
  match o with
  | some s => if s = "" then none else some s
  | none => none

/-- JS `a ?? b` on options. -/
def jsNullish (a b : Option α) : Option α :=
  match a with
  | some x => some x
  | none => b

/-! ## JS `Map` (insertion-ordered association list) and `Set` -/

/-- JS `map.set(k, v)`: overwrite in place, else append. -/
def mapSet (m : List (String × α)) (k : String) (v : α) : List (String × α) :=
  if m.any (fun p => p.1 = k) then
    m.map (fun p => if p.1 = k then (k, v) else p)
  else m ++ [(k, v)]

/-- JS `map.get(k)`. -/
def mapGet (m : List (String × α)) (k : String) : Option α :=
  (m.find? (fun p => p.1 = k)).map (fun p => p.2)

/-- JS `map.has(k)`. -/
def mapHas (m : List (String × α)) (k : String) : Bool :=
  m.any (fun p => p.1 = k)

/-- JS `new Map(pairs)`. -/
def mapOfPairs (ps : List (String × α)) : List (String × α) :=
  ps.foldl (fun m p => mapSet m p.1 p.2) []

/-- JS `set.add(x)` on a duplicate-free list. -/
def setAdd (s : List String) (x : String) : List String :=
  if s.contains x then s else s ++ [x]

/-- JS `new Set(xs)`-style deduplication keeping first occurrences. -/
def dedupFirst (xs : List String) : List String :=
  xs.foldl (fun acc x => if acc.contains x then acc else acc ++ [x]) []

/-! ## Error Recovery Engine helpers
(`figma-code-generate-workflow.ts`, `categorizeError` / `analyzeErrorPattern`
/ `determineRecoveryStrategy` / `generateLearningContext`). -/

/-- One entry of `state.errorHistory`. -/
structure ErrorRecord where
  code : String
  errorMessage : String
  errorType : String
  timestamp : Nat
deriving Repr, DecidableEq

/-- `categorizeError`: keyword classification of an error message. -/
def categorizeError (error : String) : String :=
  if strContains error "Planning" || strContains error "전략" then "planning"
  else if strContains error "Design" || strContains error "디자인" then "figma-design"
  else if strContains error "생성" || strContains error "Generate" then "generation"
  else if strContains error "검증" || strContains error "Validation" then "validation"
  else if strContains error "실행" || strContains error "Execute" then "execution"
  else "unknown"

/-- `analyzeErrorPattern`: classify the error history. -/
def analyzeErrorPattern (errorHistory : List ErrorRecord) : String :=
  match errorHistory.getLast? with
  | none => "first_error"
  | some lastError =>
    let similarErrors := errorHistory.filter (fun e => e.errorType = lastError.errorType)
    if similarErrors.length > 2 then "recurring_error"
    else if errorHistory.length > 5 then "persistent_failures"
    else "isolated_error"

/-- `determineRecoveryStrategy`: pick a recovery strategy. -/
def determineRecoveryStrategy (errorType : String) (retryCount : Nat)
    (errorPattern : String) : String :=
  if retryCount ≥ 3 || errorPattern = "persistent_failures" then "abort"
  else if errorType = "execution" && retryCount > 1 then "partial_recovery"
  else if errorPattern = "first_error" || errorPattern = "isolated_error" then
    "retry_with_learning"
  else "abort"

/-- `generateLearningContext`: category-specific remediation template. -/
def generateLearningContext (errorType : String) (error : String) : String :=
  let templates : List (String × String) :=
    [ ("planning", "Planning 에러 발생: " ++ error ++ "\n전략 수립 시 다음 사항 주의:\n- 사용자 요청 정확히 파악\n- CREATE/MODIFY/HYBRID 전략 올바르게 선택\n- TODO 리스트 구체적으로 작성")
    , ("design", "Design 에러 발생: " ++ error ++ "\n디자인 결정 시 다음 사항 주의:\n- TODO별 구체적인 디자인 결정\n- 적절한 컴포넌트 선택과 매핑\n- description으로 내부 수정사항 명시")
    , ("generation", "Generation 에러 발생: " ++ error ++ "\n코드 생성 시 다음 사항 주의:\n- 각 TODO 완전히 구현\n- 안전한 코드 패턴 사용\n- TypeScript 타입 정확히")
    , ("validation", "Validation 에러 발생: " ++ error ++ "\n검증 실패 원인:\n- TypeScript 타입 에러 확인\n- Figma API 올바른 사용\n- TODO 구현 누락 확인")
    , ("execution", "Execution 에러 발생: " ++ error ++ "\n실행 시 주의사항:\n- null 체크 필수\n- 읽기 전용 노드 체크\n- Promise 에러 처리")
    , ("unknown", "알 수 없는 에러: " ++ error ++ "\n일반적인 주의사항 적용") ]
  match mapGet templates errorType with
  | some t => t
  | none => "알 수 없는 에러: " ++ error ++ "\n일반적인 주의사항 적용"

/-- Exact rational strict comparison by cross-multiplication (kernel
computable; agrees with `<` on `ℚ` by `Rat.lt_def`). -/
def ratLtB (a b : ℚ) : Bool :=
  decide (a.num * (b.den : Int) < b.num * (a.den : Int))

/-- Build a rational from an already-reduced numerator/denominator pair
(used for concrete JS number literals in examples). -/
def qmk (n : Int) (d : Nat) (h1 : d ≠ 0 := by decide)
    (h2 : n.natAbs.Coprime d := by decide) : ℚ := ⟨n, d, h1, h2⟩

/-! ## JSON values

Model of the plain JSON data exchanged with the completion service and
serialized into learning payloads.  Numeric JSON values are modeled as
integers (the engine never branches on fractional JSON numbers). -/

inductive JsonValue where
  | null : JsonValue
  | bool (b : Bool) : JsonValue
  | num (n : Int) : JsonValue
  | str (s : String) : JsonValue
  | arr (items : List JsonValue) : JsonValue
  | obj (fields : List (String × JsonValue)) : JsonValue
deriving Repr, Inhabited

/-- JS truthiness of a JSON value (`null`, `false`, `0`, `""` are falsy). -/
def jsonTruthy : JsonValue → Bool
  | .null => false
  | .bool b => b
  | .num n => n ≠ 0
  | .str s => s ≠ ""
  | .arr _ => true
  | .obj _ => true

/-- JS property access `v.k` on a JSON value (`undefined` elsewhere). -/
def jsonField (v : JsonValue) (k : String) : Option JsonValue :=
  match v with
  | .obj fields => mapGet fields k
  | _ => none

/-- Lowercase hexadecimal digit. -/
def hexDigit (n : Nat) : Char :=
  if n < 10 then Char.ofNat (48 + n) else Char.ofNat (87 + n)

/-- `JSON.stringify` escaping of one string character. -/
def jsonEscapeChar (c : Char) : List Char :=
  if c = '"' then ['\\', '"']
  else if c = '\\' then ['\\', '\\']
  else if c = '\x08' then ['\\', 'b']
  else if c = '\x0c' then ['\\', 'f']
  else if c = '\n' then ['\\', 'n']
  else if c = '\x0d' then ['\\', 'r']
  else if c = '\t' then ['\\', 't']
  else if c.toNat < 32 then
    ['\\', 'u', '0', '0', hexDigit (c.toNat / 16), hexDigit (c.toNat % 16)]
  else [c]

/-- `JSON.stringify` of a string literal. -/
def jsonQuote (s : String) : String :=
  ⟨'"' :: (s.data.flatMap jsonEscapeChar) ++ ['"']⟩

/-- A run of `n` spaces. -/
def spaces (n : Nat) : String :=
  ⟨List.replicate n ' '⟩

mutual

/-- `JSON.stringify(v, null, 2)` at a given indentation level. -/
def jsonStringifyAt : JsonValue → Nat → String
  | .null, _ => "null"
  | .bool b, _ => if b then "true" else "false"
  | .num n, _ => n.repr
  | .str s, _ => jsonQuote s
  | .arr [], _ => "[]"
  | .arr (x :: xs), indent =>
    "[\n" ++ joinSep ",\n" (jsonStringifyItems (x :: xs) (indent + 2)) ++ "\n" ++
      spaces indent ++ "]"
  | .obj [], _ => ⟨[lbrace, rbrace]⟩
  | .obj (f :: fs), indent =>
    ⟨[lbrace]⟩ ++ "\n" ++ joinSep ",\n" (jsonStringifyFields (f :: fs) (indent + 2)) ++
      "\n" ++ spaces indent ++ ⟨[rbrace]⟩

/-- Array items rendered at an indentation level. -/
def jsonStringifyItems : List JsonValue → Nat → List String
  | [], _ => []
  | x :: xs, indent =>
    (spaces indent ++ jsonStringifyAt x indent) :: jsonStringifyItems xs indent

/-- Object fields rendered at an indentation level. -/
def jsonStringifyFields : List (String × JsonValue) → Nat → List String
  | [], _ => []
  | (k, v) :: fs, indent =>
    (spaces indent ++ jsonQuote k ++ ": " ++ jsonStringifyAt v indent) ::
      jsonStringifyFields fs indent

end

/-- `JSON.stringify(v, null, 2)`. -/
def jsonStringify2 (v : JsonValue) : String :=
  jsonStringifyAt v 0

mutual

/-- JS string interpolation `String(v)` of a JSON value. -/
def jsonToString : JsonValue → String
  | .null => "null"
  | .bool b => if b then "true" else "false"
  | .num n => n.repr
  | .str s => s
  | .arr xs => joinSep "," (jsonToStringList xs)
  | .obj _ => "[object Object]"

/-- JS `Array.prototype.toString` element rendering. -/
def jsonToStringList : List JsonValue → List String
  | [] => []
  | x :: xs => jsonToString x :: jsonToStringList xs

end

/-! ## Data model (`workflow-types.ts`)

Structures mirror the TypeScript interfaces.  Fields that are pure data
never read by any engine code path (prompt-only payloads such as
`TodoDesign.design.layout/styles/textContent`, `ScenarioSpec.baseNodeId`
etc.) are omitted with a note; every field read or written by the
embedded functions is present. -/

/-- One entry of `RequestedContext.assets`. -/
structure Asset where
  type : String
  id : Option String
  description : String
deriving Repr, DecidableEq

/-- `RequestedContext`. -/
structure RequestedContext where
  nodeIds : List String
  assets : List Asset
  questions : List String
deriving Repr, DecidableEq

/-- `EMPTY_REQUESTED_CONTEXT`. -/
def emptyRequestedContext : RequestedContext :=
  { nodeIds := [], assets := [], questions := [] }

/-- A node of `FigmaContext.selectedNodes` (recursive `children` omitted:
never read by the engine). -/
structure FigmaNode where
  id : String
  name : String
  type : String
deriving Repr, DecidableEq

/-- An entry of `FigmaContext.selectedNodesImage` (binary image data omitted). -/
structure FigmaNodeImage where
  nodeId : String
  nodeName : String
deriving Repr, DecidableEq

/-- `FigmaContext`. -/
structure FigmaContext where
  selectedNodes : List FigmaNode
  selectedNodesImage : List FigmaNodeImage
deriving Repr, DecidableEq

/-- `BlueprintScreen`. -/
structure BlueprintScreen where
  id : String
  name : String
  intent : String
  description : String
  type : String
  relatedNodeIds : List String
deriving Repr, DecidableEq

/-- `BlueprintFlow`. -/
structure BlueprintFlow where
  id : String
  name : String
  description : String
  steps : List String
  primaryScreenIds : List String
deriving Repr, DecidableEq

/-- `ProductBlueprint` (`dataContracts` is always `[]` in the engine and is
modeled as a list of strings). -/
structure ProductBlueprint where
  screens : List BlueprintScreen
  flows : List BlueprintFlow
  dataContracts : List String
  requiredContext : RequestedContext
  summary : String
deriving Repr, DecidableEq

/-- `TodoItem` (after planning normalization; `type` is the raw type tag). -/
structure TodoItem where
  id : String
  order : Int
  task : String
  type : String
  targetNode : Option String
  targetNodeId : Option String
  scenarioId : Option String
  expectedVariantProps : Option (List (String × String))
  dependencies : List String
deriving Repr, DecidableEq

/-- `ScenarioSpec` (layout-only optional fields `baseNodeId`, `variantOf`,
`pageName`, `frameName` omitted: never read by the engine). -/
structure ScenarioSpec where
  id : String
  name : String
  description : Option String
  strategy : String
deriving Repr, DecidableEq

/-- One entry of `PlanningResult.risks`. -/
structure RiskItem where
  type : String
  description : String
  mitigation : String
deriving Repr, DecidableEq

/-- `PlanningResult.scope`. -/
structure PlanScope where
  targetNodes : List (String × String × String × String)
  newComponents : List String
  reusableNodes : List String
deriving Repr, DecidableEq

/-- `PlanningResult`.  `todoList` is optional because model output parsed
from JSON may lack the array (`Array.isArray` guard in `planStrategy`);
`none` models an absent/non-array value. -/
structure PlanningResult where
  intent : String
  strategy : String
  confidence : ℚ
  scenarioStrategy : Option String
  scenarios : Option (List ScenarioSpec)
  defaultScenarioId : Option String
  scope : PlanScope
  todoList : Option (List TodoItem)
  risks : List RiskItem
  rollbackStrategy : Option String
deriving Repr, DecidableEq

/-- `TodoDesign.design.component` (`properties` payload omitted: prompt-only). -/
structure ComponentRef where
  key : String
  name : String
deriving Repr, DecidableEq

/-- `TodoDesign.design.parent`. -/
structure ParentRef where
  todoId : Option String
  existingNodeId : Option String
  insertIndex : Option Int
deriving Repr, DecidableEq

/-- `TodoDesign.design`.  All fields optional: the value comes from model
JSON.  `layout`, `styles`, `textContent` omitted (prompt-only payloads). -/
structure DesignSpec where
  nodeType : Option String
  nodeName : Option String
  description : Option String
  component : Option ComponentRef
  parent : Option ParentRef
  expectedVariantProps : Option (List (String × String))
deriving Repr, DecidableEq

/-- `TodoDesign` (after design normalization). -/
structure TodoDesign where
  todoId : String
  task : String
  targetNode : Option String
  targetNodeId : Option String
  scenarioId : Option String
  design : DesignSpec
deriving Repr, DecidableEq

/-- `DesignResult.metadata.scenarioCoverage`. -/
structure ScenarioCoverage where
  total : Int
  strategies : List (String × Int)
deriving Repr, DecidableEq

/-- `DesignResult.metadata`. -/
structure DesignMetadata where
  designSystemComponents : Int
  customElements : Int
  complexityScore : Int
  estimatedRenderTime : Int
  scenarioCoverage : Option ScenarioCoverage
deriving Repr, DecidableEq

/-- `DesignResult` (`dependencies.executionOrder` / `dependencies.parentChildMap`
flattened into two fields; the `Map` becomes an association list). -/
structure DesignResult where
  todoDesigns : List TodoDesign
  metadata : DesignMetadata
  executionOrder : List String
  parentChildMap : List (String × String)
  scenarios : Option (List ScenarioSpec)
deriving Repr, DecidableEq

/-- `GenerationResult.todoImplementation` map values. -/
structure TodoImpl where
  todoId : String
  codeLines : Nat × Nat
  implemented : Bool
deriving Repr, DecidableEq

/-- `GenerationResult.metadata` (`apiCalls` / `nodeOperations` are always
set to `[]` by the engine; modeled as string lists). -/
structure GenMetadata where
  apiCalls : List String
  nodeOperations : List String
  estimatedExecutionTime : Nat
  estimatedNodeCount : Nat
  codePatterns : List String
  safetyChecks : List String
deriving Repr, DecidableEq

/-- `GenerationResult`. -/
structure GenerationResult where
  code : String
  metadata : GenMetadata
  todoImplementation : List (String × TodoImpl)
deriving Repr, DecidableEq

/-- One node of `ExecutionReport.createdNodes`. -/
structure CreatedNode where
  id : String
  name : String
  type : String
  parentId : Option String
  scenarioId : Option String
  componentKey : Option String
  componentName : Option String
  variantProperties : Option (List (String × String))
deriving Repr, DecidableEq

/-- One node of `ExecutionReport.updatedNodes`. -/
structure UpdatedNode where
  id : String
  name : String
  type : String
  parentId : Option String
  changedProperties : List String
  componentKey : Option String
  componentName : Option String
  scenarioId : Option String
  variantProps : Option (List (String × String))
deriving Repr, DecidableEq

/-- One node of `ExecutionReport.selection`. -/
structure SelectionNode where
  id : String
  name : String
  type : String
  parentId : Option String
  scenarioId : Option String
deriving Repr, DecidableEq

/-- `ExecutionReport`: the sandbox's account of an execution. -/
structure ExecutionReport where
  timestamp : Nat
  durationMs : Nat
  executedCodeLength : Nat
  createdNodes : List CreatedNode
  updatedNodes : List UpdatedNode
  deletedNodeIds : List String
  selection : List SelectionNode
  createdNodeIds : List String
  message : Option String
  error : Option String
deriving Repr, DecidableEq

/-- One entry of `ExecutionResult.nodes.created`. -/
structure CreatedEntry where
  id : String
  name : String
  type : String
  todoId : String
  timestamp : Nat
  scenarioId : Option String
  componentKey : Option String
  componentName : Option String
  variantProps : Option (List (String × String))
deriving Repr, DecidableEq

/-- One entry of `ExecutionResult.nodes.modified`. -/
structure ModifiedEntry where
  id : String
  changes : List String
  todoId : String
  scenarioId : Option String
  variantMatch : Option Bool
  variantProps : Option (List (String × String))
  componentKey : Option String
  componentName : Option String
deriving Repr, DecidableEq

/-- One entry of `ExecutionResult.logs.errors`. -/
structure LogError where
  message : String
  type : String
  stack : Option String
deriving Repr, DecidableEq

/-- `ExecutionResult.nodes`. -/
structure ResultNodes where
  created : List CreatedEntry
  modified : List ModifiedEntry
  deleted : List String
deriving Repr, DecidableEq

/-- `ExecutionResult.logs`. -/
structure ResultLogs where
  info : List String
  warnings : List String
  errors : List LogError
deriving Repr, DecidableEq

/-- `ExecutionResult.performance`. -/
structure ResultPerformance where
  totalTime : Nat
  apiCallTime : Nat
  renderTime : Nat
  memoryUsage : Nat
deriving Repr, DecidableEq

/-- `ExecutionResult.promises`. -/
structure ResultPromises where
  resolved : Nat
  rejected : Nat
  rejectionReasons : List String
deriving Repr, DecidableEq

/-- `ExecutionResult`. -/
structure ExecutionResult where
  success : Bool
  nodes : ResultNodes
  logs : ResultLogs
  performance : ResultPerformance
  promises : ResultPromises
  report : Option ExecutionReport
deriving Repr, DecidableEq

/-- `RunLogEntry`. -/
structure RunLogEntry where
  step : String
  timestamp : Nat
  summary : String
  requestedContext : Option RequestedContext
deriving Repr, DecidableEq

/-- One entry of `state.successPatterns`. -/
structure SuccessPattern where
  pattern : String
  frequency : Nat
  averageTime : Nat
deriving Repr, DecidableEq

/-- One entry of the legacy `state.previousErrors`. -/
structure PrevError where
  code : String
  error : String
  timestamp : Nat
deriving Repr, DecidableEq

/-- One entry of the legacy `state.executionErrors`. -/
structure ExecError where
  code : String
  errorMessage : String
  errorType : String
  timestamp : Nat
  promiseRejections : List (String × String)
deriving Repr, DecidableEq

/-- `CollectedContext.assets`: the distinguished `execution_report` slot is
split out (it is the only asset key the engine reads); all other asset
entries are an opaque association list. -/
structure AssetsMap where
  executionReport : Option ExecutionReport
  others : List (String × JsonValue)
deriving Repr

/-- `CollectedContext`. -/
structure CollectedContext where
  nodeDetails : List (String × JsonValue)
  assets : AssetsMap
  answers : List (String × String)
deriving Repr

/-- The empty `collectedContext` used by `createInitialState`. -/
def emptyCollectedContext : CollectedContext :=
  { nodeDetails := [], assets := { executionReport := none, others := [] }, answers := [] }

/-- `ValidationError` of `typescript-validator.ts` (the `type` union is kept
as a string: one of SYNTAX_ERROR, TYPE_ERROR, FIGMA_API_ERROR, COLOR_FORMAT,
FIGMA_API, VALIDATION_ERROR). -/
structure ValidationError where
  type : String
  message : String
  line : Nat
  suggestion : String
  code : String
deriving Repr, DecidableEq

/-- `ValidationWarning` of `typescript-validator.ts`. -/
structure ValidationWarning where
  message : String
deriving Repr, DecidableEq

/-- Return value of `TypeScriptValidator.validateFigmaCode`. -/
structure TsValidationResult where
  success : Bool
  errors : List ValidationError
  warnings : List ValidationWarning
  learningContext : String
deriving Repr, DecidableEq

/-- `ValidationResult.typescript` block of the workflow state. -/
structure TsBlock where
  success : Bool
  errors : List ValidationError
  warnings : List ValidationWarning
  suggestions : List String
deriving Repr, DecidableEq

/-- `ValidationResult.figmaApi` block. -/
structure FigmaApiBlock where
  validCalls : List String
  invalidCalls : List String
  deprecatedUsage : List String
  performanceIssues : List String
deriving Repr, DecidableEq

/-- `ValidationResult.todoValidation` block. -/
structure TodoValidationBlock where
  totalTodos : Nat
  implementedTodos : Nat
  coverage : Nat
  missingImplementations : List String
deriving Repr, DecidableEq

/-- `ValidationResult.safety` block. -/
structure SafetyBlock where
  nullChecks : Bool
  errorHandling : Bool
  asyncHandling : Bool
  memoryLeaks : List String
deriving Repr, DecidableEq

/-- `ValidationResult` stored in `state.validation`. -/
structure ValidationState where
  typescript : TsBlock
  figmaApi : FigmaApiBlock
  todoValidation : TodoValidationBlock
  safety : SafetyBlock
  overallScore : Nat
  recommendation : String
deriving Repr, DecidableEq

/-- Legacy `state.validationResult`. -/
structure LegacyValidation where
  isValid : Bool
  errors : Option (List String)
  warnings : Option (List String)
deriving Repr, DecidableEq

/-- `FigmaCodeWorkflowState`.  The interface fields `analysis`, `execution`
and `verification` are declared in the TypeScript type but never read or
written by any engine code path and are omitted.  The legacy
`analysisResult` blob written by `designTodos` is modeled by its only
varying component (the raw response text); its remaining fields are
constants in the source. -/
structure WorkflowState where
  userPrompt : String
  figmaContext : Option FigmaContext
  conversationHistory : Option (List (String × String))
  plan : Option PlanningResult
  design : Option DesignResult
  generation : Option GenerationResult
  validation : Option ValidationState
  blueprint : Option ProductBlueprint
  componentGuides : Option (List (String × String))
  analysisResult : Option String
  generatedCode : Option String
  validationResult : Option LegacyValidation
  executionResult : Option ExecutionResult
  previousErrors : Option (List PrevError)
  executionErrors : Option (List ExecError)
  currentStep : String
  retryCount : Nat
  maxRetries : Nat
  partialRetry : Bool
  stateVersion : String
  stepHistory : List String
  lastStepCompleted : Option String
  lastUpdatedAt : Option Nat
  requestedContext : RequestedContext
  collectedContext : CollectedContext
  learning : Option String
  errorHistory : List ErrorRecord
  successPatterns : List SuccessPattern
  thoughts : List String
  messages : List String
  isComplete : Bool
  error : Option String
  runLog : List RunLogEntry
  executionReport : Option ExecutionReport
deriving Repr

/-- `WORKFLOW_STATE_VERSION`. -/
def workflowStateVersion : String := "2025-01-step-alpha"

/-- `createInitialState`. -/
def createInitialState (userPrompt : String) (figmaContext : Option FigmaContext)
    (conversationHistory : Option (List (String × String)))
    (previousError : Option String) (now : Nat) : WorkflowState :=
  { userPrompt := userPrompt
    figmaContext := figmaContext
    conversationHistory := conversationHistory
    plan := none
    design := none
    generation := none
    validation := none
    blueprint := none
    componentGuides := none
    analysisResult := none
    generatedCode := none
    validationResult := none
    executionResult := none
    previousErrors := none
    executionErrors := none
    currentStep := "product-blueprint"
    retryCount := 0
    maxRetries := 3
    partialRetry := false
    stateVersion := workflowStateVersion
    stepHistory := []
    lastStepCompleted := none
    lastUpdatedAt := some now
    requestedContext := emptyRequestedContext
    collectedContext := emptyCollectedContext
    learning := previousError
    errorHistory := []
    successPatterns := []
    thoughts := []
    messages := []
    isComplete := false
    error := none
    runLog := []
    executionReport := none }

/-! ## Workflow helpers (`FigmaCodeGenerateWorkflow` private methods) -/

/-- `state.thoughts.push(t)` plus the (effect-free) thought callbacks. -/
def pushThought (s : WorkflowState) (t : String) : WorkflowState :=
  { s with thoughts := s.thoughts ++ [t] }

/-- `cloneRequestedContext`: a deep copy, the identity on pure values. -/
def cloneRequestedContext (c : RequestedContext) : RequestedContext := c

/-- `hasPendingRequests`. -/
def hasPendingRequests (c : RequestedContext) : Bool :=
  c.nodeIds.length > 0 || c.assets.length > 0 || c.questions.length > 0

/-- `clearRequestedContext`. -/
def clearRequestedContext (s : WorkflowState) : WorkflowState :=
  { s with requestedContext := emptyRequestedContext }

/-- `appendRunLog`. -/
def appendRunLog (s : WorkflowState) (step summary : String) (now : Nat) :
    WorkflowState :=
  { s with runLog := s.runLog ++
      [{ step := step, timestamp := now, summary := summary,
         requestedContext := some (cloneRequestedContext s.requestedContext) }] }

/-- `ContextUpdatePayload` of the step API. -/
structure ContextUpdatePayload where
  nodeDetails : Option (List (String × JsonValue))
  assets : Option AssetsMap
  answers : Option (List (String × String))

/-- Record-spread merge `{...old, ...new}` on association lists. -/
def assocMerge (old new : List (String × α)) : List (String × α) :=
  new.foldl (fun m p => mapSet m p.1 p.2) old

/-- `applyContextUpdate`. -/
def applyContextUpdate (s : WorkflowState) (u : ContextUpdatePayload) :
    WorkflowState :=
  let cc := s.collectedContext
  let cc :=
    match u.nodeDetails with
    | some nd => { cc with nodeDetails := assocMerge cc.nodeDetails nd }
    | none => cc
  let cc :=
    match u.assets with
    | some a =>
      { cc with assets :=
          { executionReport :=
              match a.executionReport with
              | some r => some r
              | none => cc.assets.executionReport
            others := assocMerge cc.assets.others a.others } }
    | none => cc
  let cc :=
    match u.answers with
    | some ans => { cc with answers := assocMerge cc.answers ans }
    | none => cc
  { s with collectedContext := cc }

/-! ## Step: `buildProductBlueprint` -/

/-- `buildProductBlueprint` (pure: derives the blueprint from the context). -/
def buildProductBlueprint (s : WorkflowState) : WorkflowState :=
  let s := pushThought s "🗺️ 제품 블루프린트 작성 중..."
  let selectedNodes := (s.figmaContext.map FigmaContext.selectedNodes).getD []
  let screens : List BlueprintScreen :=
    (selectedNodes.enum).map (fun p =>
      let node := p.2
      let index := p.1
      { id := "existing_" ++ node.id
        name := match strT (some node.name) with
                | some n => n
                | none => "선택된 노드 " ++ Nat.repr (index + 1)
        intent := "기존 " ++ node.type ++ " 노드 개선"
        description := "선택된 " ++ node.type ++ " 노드를 기반으로 한 개선 작업"
        type := "existing"
        relatedNodeIds := [node.id] })
  let screens :=
    if screens.length = 0 then
      [{ id := "new_screen_1", name := "신규 화면", intent := s.userPrompt
         description := "사용자 요청을 기반으로 생성되는 신규 화면"
         type := "new", relatedNodeIds := [] }]
    else screens
  let flows : List BlueprintFlow :=
    [{ id := "primary_flow", name := "핵심 사용자 여정"
       description := "사용자 요청을 충족하기 위한 주요 단계"
       steps := ["요구사항 해석", "핵심 화면 설계", "상세 UI 구성"]
       primaryScreenIds := screens.map (fun sc => sc.id) }]
  let blueprint : ProductBlueprint :=
    { screens := screens
      flows := flows
      dataContracts := []
      requiredContext :=
        { nodeIds := (screens.flatMap (fun sc => sc.relatedNodeIds)).filter
            (fun n => n ≠ "")
          assets := []
          questions :=
            if (screens.filter (fun sc => sc.type = "new")).length > 0 then
              ["신규 화면의 핵심 사용자 목표가 무엇인가요?",
               "필수로 노출되어야 하는 데이터나 콘텐츠가 있나요?"]
            else [] }
      summary := "요청한 작업을 위한 화면 " ++ Nat.repr screens.length ++
        "개와 주요 플로우 1개를 정의했습니다." }
  let s := { s with blueprint := some blueprint
                    requestedContext :=
                      if hasPendingRequests blueprint.requiredContext then
                        cloneRequestedContext blueprint.requiredContext
                      else emptyRequestedContext }
  let s := pushThought s "🧭 블루프린트 생성 완료"
  { s with currentStep := "planning" }

/-! ## Step: `executeCode` -/

/-- The `requestedContext` asking for an execution report. -/
def executionReportRequest (description : String) : RequestedContext :=
  { nodeIds := []
    assets := [{ type := "execution_report", id := none, description := description }]
    questions := [] }

/-- `executeCode`: hand the generated script to the sandbox collaborator. -/
def executeCode (s : WorkflowState) : WorkflowState :=
  let s := pushThought s "🚀 코드를 클라이언트로 전송 중..."
  match strT s.generatedCode with
  | none => { s with error := some "실행할 코드가 없습니다", currentStep := "error" }
  | some _ =>
    let s :=
      { s with
        executionResult := some
          { success := false
            nodes := { created := [], modified := [], deleted := [] }
            logs := { info := [], warnings := [], errors := [] }
            performance :=
              { totalTime := 0, apiCallTime := 0, renderTime := 0, memoryUsage := 0 }
            promises := { resolved := 0, rejected := 0, rejectionReasons := [] }
            report := none }
        executionReport := none
        requestedContext := executionReportRequest "마지막 코드 실행 결과" }
    let s := pushThought s "✨ 코드가 생성되었습니다. 클라이언트에서 실행을 시작합니다."
    { s with currentStep := "verify", isComplete := false }

/-! ## Step: `handleError` (Error Recovery Engine) -/

/-- Shared abort arm of the `handleError` strategy switch. -/
def handleErrorAbort (s : WorkflowState) : WorkflowState :=
  let s := pushThought s ("❌ 복구 불가: " ++ (match s.error with
    | some e => e
    | none => "undefined"))
  { s with currentStep := "__end__", isComplete := true }

/-- `partial_recovery` arm (also the fall-through target of an exhausted
`retry_with_learning`). -/
def handleErrorPartial (s : WorkflowState) : WorkflowState :=
  if s.plan.isSome && s.generation.isSome then
    let s := pushThought s "⚠️ 부분 복구 시도: 완료된 TODO만 유지"
    { s with partialRetry := true, currentStep := "verify" }
  else handleErrorAbort s

/-- The error-history record pushed by `handleError`. -/
def handleErrorEntry (s : WorkflowState) (now : Nat) : ErrorRecord :=
  { code := (s.generatedCode).getD ""
    errorMessage := (s.error).getD ""
    errorType := categorizeError ((s.error).getD "")
    timestamp := now }

/-- `handleError`. -/
def handleError (s : WorkflowState) (now : Nat) : WorkflowState :=
  let s := pushThought s "🔧 에러 복구 메커니즘 실행 중..."
  let s := clearRequestedContext s
  let errorType := categorizeError ((s.error).getD "")
  let s := { s with errorHistory := s.errorHistory ++ [handleErrorEntry s now] }
  let errorPattern := analyzeErrorPattern s.errorHistory
  let recoveryStrategy := determineRecoveryStrategy errorType s.retryCount errorPattern
  if recoveryStrategy = "retry_with_learning" then
    if s.retryCount < s.maxRetries then
      let s := { s with learning := some (generateLearningContext errorType ((s.error).getD "")) }
      let s := { s with successPatterns := s.successPatterns ++
          [{ pattern := "Avoid: " ++ errorType, frequency := 1, averageTime := now }] }
      let s := pushThought s ("🔄 에러 패턴 학습 후 재시도 (" ++
        Nat.repr (s.retryCount + 1) ++ "/" ++ Nat.repr s.maxRetries ++ ")")
      let s := { s with retryCount := s.retryCount + 1, error := none }
      if errorType = "planning" || errorType = "figma-design" then
        { s with currentStep := "planning" }
      else if errorType = "generation" || errorType = "validation" then
        { s with currentStep := "generate" }
      else
        { s with currentStep := "planning" }
    else handleErrorPartial s
  else if recoveryStrategy = "partial_recovery" then handleErrorPartial s
  else handleErrorAbort s

/-! ## Step: `validateCode` and its helpers -/

/-- Count of non-overlapping occurrences of a literal pattern
(`code.match(/pat/g)?.length ?? 0`), fuel-driven scan. -/
def countOccurGo (needle : List Char) : Nat → List Char → Nat
  | 0, _ => 0
  | _, [] => 0
  | Nat.succ f, c :: cs =>
    if isPrefixOfL needle (c :: cs) then
      match needle with
      | [] => 0
      | _ :: nt => 1 + countOccurGo needle f (List.drop nt.length cs)
    else countOccurGo needle f cs

/-- Count of non-overlapping occurrences of `pat` in `s`. -/
def countOccur (s pat : String) : Nat :=
  countOccurGo pat.data s.data.length s.data

/-- The literal valid-API patterns of `validateFigmaApi`. -/
def validApiPatterns : List String :=
  ["figma.createFrame", "figma.createText", "figma.createRectangle",
   "figma.createComponent", "figma.createInstance", "figma.getNodeById",
   "figma.currentPage"]

/-- The literal invalid-API patterns of `validateFigmaApi`. -/
def invalidApiPatterns : List String :=
  ["figma.deleteNode", "node.remove()"]

/-- Helper for the `/for\s*\(.*\)\s*\{[\s\S]*?figma\.create/` performance
check: after a `(`, look for a `)` on the same line followed by optional
whitespace, a `\{` and a later `figma.create`. -/
def forParenScan : List Char → Bool
  | [] => false
  | c :: cs =>
    if c = '\n' then false
    else if c = ')' then
      (let rest := cs.dropWhile Char.isWhitespace
       match rest with
       | [] => false
       | b :: r => b = lbrace && isInfixOfL "figma.create".data r) || forParenScan cs
    else forParenScan cs

/-- Scan for the performance-issue pattern of `validateFigmaApi`. -/
def hasForCreatePattern : List Char → Bool
  | [] => false
  | c :: cs =>
    (isPrefixOfL "for".data (c :: cs) &&
      (let afterFor := List.drop 2 cs
       let afterWs := afterFor.dropWhile Char.isWhitespace
       match afterWs with
       | '(' :: rest => forParenScan rest
       | _ => false)) ||
    hasForCreatePattern cs

/-- `validateFigmaApi`. -/
def validateFigmaApi (code : String) : FigmaApiBlock :=
  { validCalls := validApiPatterns.flatMap
      (fun p => List.replicate (countOccur code p) p)
    invalidCalls := invalidApiPatterns.flatMap
      (fun p => List.replicate (countOccur code p) p)
    deprecatedUsage := []
    performanceIssues :=
      if hasForCreatePattern code.data then
        ["Creating nodes in loop - consider batch creation"]
      else [] }

/-- `todo.id.split("_")[1]` interpolated into the TODO marker regex
(JS renders a missing element as `undefined`). -/
def todoIdSuffix (id : String) : String :=
  match (splitOnCharL '_' id.data).get? 1 with
  | some cs => ⟨cs⟩
  | none => "undefined"

/-- `validateTodoImplementation` (the `todoImplementation` map argument of
the source is never read by its body). -/
def validateTodoImplementation (code : String) (todoList : List TodoItem) :
    TodoValidationBlock :=
  let counted := todoList.foldl
    (fun (acc : Nat × List String) todo =>
      if strContains code ("TODO_" ++ todoIdSuffix todo.id) then
        (acc.1 + 1, acc.2)
      else (acc.1, acc.2 ++ [todo.task]))
    (0, [])
  { totalTodos := todoList.length
    implementedTodos := counted.1
    coverage :=
      if todoList.length > 0 then
        (counted.1 * 200 + todoList.length) / (2 * todoList.length)
      else 0
    missingImplementations := counted.2 }

/-- `validateSafety`. -/
def validateSafety (code : String) : SafetyBlock :=
  { nullChecks := strContains code "if (!" || strContains code "if (node)"
    errorHandling := strContains code "try" && strContains code "catch"
    asyncHandling := strContains code "async" && strContains code "await"
    memoryLeaks := [] }

/-- `recordValidationError`. -/
def recordValidationError (s : WorkflowState) (tsValidation : TsValidationResult)
    (now : Nat) : WorkflowState :=
  { s with previousErrors := some ((s.previousErrors.getD []) ++
      [{ code := s.generatedCode.getD ""
         error := joinSep ", " (tsValidation.errors.map (fun e => e.message))
         timestamp := now }]) }

/-- `state.plan?.todoList || []`. -/
def planTodoListOf (s : WorkflowState) : List TodoItem :=
  match s.plan with
  | some p => p.todoList.getD []
  | none => []

/-- Legacy error formatting in `validateCode`. -/
def legacyErrorLine (e : ValidationError) : String :=
  "[" ++ e.type ++ "] " ++ Nat.repr e.line ++ "번 줄: " ++ e.message

/-- The minimal fallback pattern check used when the TypeScript validator
throws (the `catch` branch of `validateCode`). -/
def fallbackValidationErrors (code : String) : List String :=
  (if !(strContains code "figma.") then ["Figma API 호출이 없습니다"] else []) ++
  (if strContains code "await" && !(strContains code "async") then
     ["async 함수 내에서만 await 사용 가능"]
   else [])

/-- `validateCode`.  The result of awaiting
`this.validator.validateFigmaCode(code)` is an oracle: `.ok` carries its
value, `.error` models the validator throwing (triggering the fallback
`catch` branch). -/
def validateCode (s : WorkflowState)
    (tsOutcome : Except Unit TsValidationResult) (now : Nat) : WorkflowState :=
  let s := pushThought s "🔍 다층 검증 수행 중 (TypeScript, Figma API, TODO 커버리지)..."
  let s := clearRequestedContext s
  match strT s.generatedCode, s.generation with
  | some code, some _ =>
    (match tsOutcome with
     | .ok tsValidation =>
       let figmaApiValidation := validateFigmaApi code
       let todoValidation := validateTodoImplementation code (planTodoListOf s)
       let safetyValidation := validateSafety code
       let isValid := tsValidation.success &&
         figmaApiValidation.validCalls.length > 0 &&
         figmaApiValidation.invalidCalls.length = 0
       let s := { s with
         validation := some
           { typescript :=
               { success := tsValidation.success
                 errors := tsValidation.errors
                 warnings := tsValidation.warnings
                 suggestions := [] }
             figmaApi := figmaApiValidation
             todoValidation := todoValidation
             safety := safetyValidation
             overallScore := if isValid then 100 else 0
             recommendation := if isValid then "proceed" else "retry" }
         validationResult := some
           { isValid := isValid
             errors := some (tsValidation.errors.map legacyErrorLine)
             warnings := some (tsValidation.warnings.map (fun w => w.message)) } }
       if isValid then
         let s := pushThought s "✅ 검증 성공: TypeScript ✓, Figma API ✓"
         { s with currentStep := "execute" }
       else if s.retryCount < s.maxRetries then
         let s := pushThought s "⚠️ 검증 실패, 재시도 필요"
         let s := recordValidationError s tsValidation now
         { s with retryCount := s.retryCount + 1
                  learning := some tsValidation.learningContext
                  currentStep := "generate" }
       else
         { s with
           error := some ("검증 실패: " ++
             joinSep "\n" (tsValidation.errors.map (fun e => "- " ++ e.message)))
           currentStep := "error" }
     | .error _ =>
       let s := pushThought s "⚠️ TypeScript 검증 실패, 기본 패턴 검증 수행"
       let errors := fallbackValidationErrors code
       let s := { s with validationResult := some ({
         isValid := errors.length = 0
         errors := if errors.length > 0 then some errors else none
         warnings := none } : LegacyValidation) }
       if errors.length = 0 then
         { s with currentStep := "execute" }
       else
         let s := { s with retryCount := s.retryCount + 1 }
         if s.retryCount < s.maxRetries then
           { s with learning := some ("기본 검증 실패:\n" ++ joinSep "\n" errors)
                    currentStep := "generate" }
         else
           { s with error := some ("검증 실패: " ++ joinSep ", " errors)
                    currentStep := "error" })
  | _, _ =>
    { s with error := some "생성된 코드가 없습니다.", currentStep := "generate" }

/-! ## Learning guidance (`tryParseLearningJSON` / `buildLearningGuidance`)

`JSON.parse` of caller text is an oracle (`parse`); everything after the
parse is embedded. -/

mutual

/-- Compact `JSON.stringify(v)` (no indentation). -/
def jsonStringifyC : JsonValue → String
  | .null => "null"
  | .bool b => if b then "true" else "false"
  | .num n => n.repr
  | .str s => jsonQuote s
  | .arr xs => "[" ++ joinSep "," (jsonStringifyCList xs) ++ "]"
  | .obj fs => ⟨[lbrace]⟩ ++ joinSep "," (jsonStringifyCFields fs) ++ ⟨[rbrace]⟩

/-- Compact rendering of array items. -/
def jsonStringifyCList : List JsonValue → List String
  | [] => []
  | x :: xs => jsonStringifyC x :: jsonStringifyCList xs

/-- Compact rendering of object fields. -/
def jsonStringifyCFields : List (String × JsonValue) → List String
  | [] => []
  | (k, v) :: fs => (jsonQuote k ++ ":" ++ jsonStringifyC v) :: jsonStringifyCFields fs

end

/-- `LearningPromptContext` (`generation-prompt.ts`). -/
structure LearningPromptContext where
  summary : Option String
  guides : Option (List String)
  raw : Option String
deriving Repr, DecidableEq

/-- `tryParseLearningJSON` given the `JSON.parse` oracle. -/
def tryParseLearningJSON (parse : String → Option JsonValue) (value : String) :
    Option JsonValue :=
  let trimmed := jsTrim value
  if trimmed = "" then none
  else if !(strStartsWith trimmed ⟨[lbrace]⟩ || strStartsWith trimmed "[") then none
  else parse trimmed

/-- JS chain `a || b || ... || dflt` over JSON values (first truthy wins,
otherwise the last operand). -/
def jsOrChain (xs : List (Option JsonValue)) (dflt : JsonValue) : JsonValue :=
  match xs with
  | [] => dflt
  | x :: rest =>
    match x with
    | some v => if jsonTruthy v then v else jsOrChain rest dflt
    | none => jsOrChain rest dflt

/-- `typeof v === "string" ? v : undefined`. -/
def asString : Option JsonValue → Option String
  | some (.str s) => some s
  | _ => none

/-- JS `(typeof a === "string" && a) || ... || dflt` string chains. -/
def firstNonemptyStr (xs : List (Option JsonValue)) (dflt : String) : String :=
  match xs with
  | [] => dflt
  | x :: rest =>
    match asString x with
    | some s => if s ≠ "" then s else firstNonemptyStr rest dflt
    | none => firstNonemptyStr rest dflt

/-- One bullet of the `missing_todos` guidance branch. -/
def missingTodoBullet (todo : JsonValue) : Option String :=
  if !(jsonTruthy todo) then none
  else
    let todoType := jsOrChain [jsonField todo "todoType", jsonField todo "type"] (.str "TODO")
    let id := jsOrChain [jsonField todo "id", jsonField todo "todoId", jsonField todo "todo_id"] (.str "")
    let task := jsOrChain [jsonField todo "task", jsonField todo "description", jsonField todo "summary"] (.str "")
    let reason := jsOrChain [jsonField todo "reason", jsonField todo "detail", jsonField todo "message"] (.str "")
    let bulletParts : List String :=
      (if jsonTruthy todoType then ["[" ++ jsonToString todoType ++ "]"] else []) ++
      (if jsonTruthy id then ["#" ++ jsonToString id] else []) ++
      (if jsonTruthy task then [jsonToString task] else [])
    let bullet := joinSep " " bulletParts
    let bullet := if jsonTruthy reason then bullet ++ " — " ++ jsonToString reason else bullet
    let bullet := jsTrim bullet
    if bullet ≠ "" then some bullet else none

/-- Guides collected from a `validation_failure` payload. -/
def validationFailureGuides (failures : List JsonValue) : List String :=
  failures.foldl (fun acc failure =>
    match failure with
    | .str s => if jsTrim s ≠ "" then acc ++ [jsTrim s] else acc
    | _ =>
      if jsonTruthy failure then
        match asString (jsonField failure "message") with
        | some m => if jsTrim m ≠ "" then acc ++ [jsTrim m] else acc
        | none => acc
      else acc) []

/-- String items of the generic payload list fields (`guides`/`hints`/`actions`). -/
def stringListItems (field : Option JsonValue) : List String :=
  match field with
  | some (.arr items) =>
    items.foldl (fun acc item =>
      match item with
      | .str s => if jsTrim s ≠ "" then acc ++ [jsTrim s] else acc
      | _ => acc) []
  | _ => []

/-- `buildLearningGuidance` with explicit recursion fuel (the source caps
nesting by `depth > 2`; fuel `3` at the top level realizes the same cap). -/
def buildLearningGuidanceF (parse : String → Option JsonValue) :
    Nat → Nat → Option String → Option LearningPromptContext
  | 0, _, _ => none
  | Nat.succ fuel, depth, learning =>
    match strT learning with
    | none => none
    | some l =>
      if depth > 2 then none
      else
        let trimmed := jsTrim l
        if trimmed = "" then none
        else
          match tryParseLearningJSON parse trimmed with
          | none => some { summary := some trimmed, guides := none, raw := some trimmed }
          | some parsed =>
            match parsed with
            | .obj fields =>
              let payload : JsonValue := .obj fields
              let payloadType := asString (jsonField payload "type")
              let branch : Option String × List String :=
                match payloadType with
                | some t =>
                  if t = "" then (none, [])
                  else if t = "missing_todos" then
                    (some ((asString (jsonField payload "summary")).getD
                        "이전 실행에서 누락된 TODO를 반드시 처리하세요."),
                     match jsonField payload "todos" with
                     | some (.arr todos) =>
                       todos.foldl (fun acc todo =>
                         match missingTodoBullet todo with
                         | some b => acc ++ [b]
                         | none => acc) []
                     | _ => [])
                  else if t = "validation_failure" then
                    (some ((asString (jsonField payload "summary")).getD
                        "검증 단계에서 발생한 실패 원인을 해결하세요."),
                     match jsonField payload "failures" with
                     | some (.arr failures) => validationFailureGuides failures
                     | _ => [])
                  else
                    (some ((asString (jsonField payload "summary")).getD
                        ((asString (jsonField payload "message")).getD
                          ("이전 실행에서 '" ++ t ++ "' 유형 이슈가 발생했습니다. 대응 전략을 반영하세요."))),
                     stringListItems (jsonField payload "guides") ++
                     stringListItems (jsonField payload "hints") ++
                     stringListItems (jsonField payload "actions"))
                | none => (none, [])
              let summary0 := branch.1
              let guides0 := branch.2
              let summary :=
                match strT summary0 with
                | some sfound => sfound
                | none =>
                  firstNonemptyStr
                    [jsonField payload "summary", jsonField payload "message",
                     jsonField payload "description"]
                    "이전 실행에서 학습된 교훈을 반영하세요."
              let guides :=
                match jsonField payload "previous" with
                | some prev =>
                  if jsonTruthy prev && depth < 2 then
                    let nestedRaw :=
                      match prev with
                      | .str sp => sp
                      | _ => jsonStringifyC prev
                    match buildLearningGuidanceF parse fuel (depth + 1) (some nestedRaw) with
                    | some nested =>
                      let g1 :=
                        match strT nested.summary with
                        | some ns => guides0 ++ ["이전 참고: " ++ ns]
                        | none => guides0
                      match nested.guides with
                      | some ngs => g1 ++ ngs.map (fun g => "이전 참고: " ++ g)
                      | none => g1
                    | none => guides0
                  else guides0
                | none => guides0
              let dedupedGuides := dedupFirst ((guides.map jsTrim).filter (fun g => g ≠ ""))
              some { summary := strT (some (jsTrim summary))
                     guides := if dedupedGuides.length > 0 then some dedupedGuides else none
                     raw := some (jsonStringifyAt parsed 0) }
            | _ => some { summary := some trimmed, guides := none, raw := some trimmed }

/-- `buildLearningGuidance(learning)` at top level. -/
def buildLearningGuidance (parse : String → Option JsonValue)
    (learning : Option String) : Option LearningPromptContext :=
  buildLearningGuidanceF parse 3 0 learning

/-! ## `extractCode`: fenced-block extraction and prose filtering -/

/-- Lazy capture of `([\s\S]*?)` up to the closing `\n three-backticks`
fence: the body before the first such occurrence. -/
def fenceBody : List Char → Option (List Char)
  | [] => none
  | c :: cs =>
    if isPrefixOfL ('\n' :: '`' :: '`' :: '`' :: []) (c :: cs) then some []
    else (fenceBody cs).map (fun b => c :: b)

/-- The optional language tags of the fence regex, in alternation order. -/
def fenceLangs : List String := ["javascript", "js", "typescript", "ts", ""]

/-- Try to match the opening fence at the head of the text and return the
captured body. -/
def tryFenceAt (cs : List Char) : Option (List Char) :=
  if isPrefixOfL ('`' :: '`' :: '`' :: []) cs then
    let rest := cs.drop 3
    fenceLangs.findSome? (fun lang =>
      if isPrefixOfL (lang.data ++ ['\n']) rest then
        fenceBody (rest.drop (lang.data.length + 1))
      else none)
  else none

/-- Leftmost fenced-code-block match of
`/three-backticks(?:javascript|js|typescript|ts)?\n([\s\S]*?)\n three-backticks/`. -/
def scanFence : List Char → Option (List Char)
  | [] => none
  | c :: cs =>
    match tryFenceAt (c :: cs) with
    | some b => some b
    | none => scanFence cs

/-- End position (exclusive) of the last occurrence of `needle`
(JS `lastIndexOf` + length). -/
def lastMatchEnd (needle : List Char) : List Char → Nat → Option Nat
  | [], _ => none
  | c :: cs, pos =>
    match lastMatchEnd needle cs (pos + 1) with
    | some e => some e
    | none => if isPrefixOfL needle (c :: cs) then some (pos + needle.length) else none

/-- The is-code heuristic of `extractCode` for one trimmed line. -/
def isCodeLine (t : List Char) : Bool :=
  isPrefixOfL "//".data t || isPrefixOfL "/*".data t || isPrefixOfL "*".data t ||
  isInfixOfL "=".data t || isInfixOfL "(".data t || isInfixOfL [lbrace] t ||
  isInfixOfL ";".data t || isInfixOfL "const ".data t || isInfixOfL "let ".data t ||
  isInfixOfL "var ".data t || isInfixOfL "function ".data t ||
  isInfixOfL "async ".data t || isInfixOfL "await ".data t ||
  isInfixOfL "figma.".data t || isInfixOfL [rbrace] t || isInfixOfL "]".data t ||
  (match t with
   | c :: _ => (('a' ≤ c && c ≤ 'z') || ('A' ≤ c && c ≤ 'Z') || c = '_' || c = '$')
   | [] => false)

/-- The Korean-description heuristic of `extractCode` for one trimmed line. -/
def isDescriptionLine (t : List Char) : Bool :=
  (match t with
   | c :: _ => 0xAC00 ≤ c.toNat && c.toNat ≤ 0xD7A3
   | [] => false) &&
  !(isInfixOfL "=".data t) && !(isInfixOfL "(".data t) && !(isInfixOfL [lbrace] t)

/-- Keep/drop decision for one raw line of the code block. -/
def keepLine (line : List Char) : Bool :=
  let trimmedLine := jsTrimL line
  if trimmedLine = [] then true
  else isCodeLine trimmedLine && !(isDescriptionLine trimmedLine)

/-- Join lines with newlines. -/
def joinLinesL : List (List Char) → List Char
  | [] => []
  | [l] => l
  | l :: ls => l ++ '\n' :: joinLinesL ls

/-- `extractCode`: extract a fenced code block, truncate after the final
`executeCode();`, and drop prose lines. -/
def extractCode (content : String) : String :=
  match scanFence content.data with
  | none => jsTrim content
  | some body =>
    let code := jsTrimL body
    let code :=
      match lastMatchEnd "executeCode();".data code 0 with
      | some e => code.take e
      | none => code
    let lines := splitOnCharL '\n' code
    let codeLines := lines.filter keepLine
    ⟨jsTrimL (joinLinesL codeLines)⟩

/-! ## `applyCodeGuards` -/

/-- Characters of the `[A-Za-z0-9_.$]` identifier class. -/
def identChar (c : Char) : Bool :=
  ('a' ≤ c && c ≤ 'z') || ('A' ≤ c && c ≤ 'Z') || ('0' ≤ c && c ≤ '9') ||
  c = '_' || c = '.' || c = '$'

/-- Parse `([^,]+),\s*([^\)]+)\)` after `.insertChild(`: returns
(index argument, node argument, rest after the closing paren). -/
def parseInsertArgs (cs : List Char) : Option (List Char × List Char × List Char) :=
  let seg2 := cs.takeWhile (fun c => c ≠ ',')
  if seg2 = [] then none
  else
    match cs.drop seg2.length with
    | ',' :: rest1 =>
      let rest2 := rest1.dropWhile Char.isWhitespace
      let seg3 := rest2.takeWhile (fun c => c ≠ ')')
      if seg3 = [] then none
      else
        match rest2.drop seg3.length with
        | ')' :: rest3 => some (seg2, seg3, rest3)
        | _ => none
    | _ => none

/-- Global rewrite of `parent.insertChild(index, node)` calls into
`safeInsertChild(parent, node, index)` (the replacement template of
`applyCodeGuards`).  `acc` holds the emitted output reversed. -/
def insertChildGo : Nat → List Char → List Char → List Char
  | 0, acc, rest => acc.reverse ++ rest
  | _ + 1, acc, [] => acc.reverse
  | Nat.succ fuel, acc, c :: cs =>
    if isPrefixOfL ".insertChild(".data (c :: cs) then
      let identRev := acc.takeWhile identChar
      if identRev = [] then insertChildGo fuel (c :: acc) cs
      else
        match parseInsertArgs ((c :: cs).drop ".insertChild(".length) with
        | some (seg2, seg3, rest3) =>
          let replacement :=
            "safeInsertChild(".data ++ jsTrimL identRev.reverse ++ ", ".data ++
            jsTrimL seg3 ++ ", ".data ++ jsTrimL seg2 ++ [')']
          insertChildGo fuel (replacement.reverse ++ acc.drop identRev.length) rest3
        | none => insertChildGo fuel (c :: acc) cs
    else insertChildGo fuel (c :: acc) cs

/-- The `safeInsertChild` helper source prepended by `applyCodeGuards`. -/
def safeInsertHelper : String :=
  "function safeInsertChild(parent, node, index) \x7b\n  if (typeof index === \"number\" && index >= 0 && index <= parent.children.length) \x7b\n    parent.insertChild(index, node);\n  \x7d else \x7b\n    parent.appendChild(node);\n  \x7d\n\x7d\n\n"

/-- Test for `/function\s+safeInsertChild\s*\(/`. -/
def hasFuncSafeInsertChild : List Char → Bool
  | [] => false
  | c :: cs =>
    (isPrefixOfL "function".data (c :: cs) &&
      (let after := (c :: cs).drop "function".data.length
       let ws := after.takeWhile Char.isWhitespace
       ws ≠ [] &&
         (let after2 := after.drop ws.length
          isPrefixOfL "safeInsertChild".data after2 &&
            (match (after2.drop "safeInsertChild".data.length).dropWhile Char.isWhitespace with
             | '(' :: _ => true
             | _ => false)))) ||
    hasFuncSafeInsertChild cs

/-- Lazy body scan of the nested-`const safeInsertChild` removal regex:
consume `[\s\S]*?` up to the first right brace followed by `\s*;`,
returning the rest after the semicolon. -/
def constArrowBody : List Char → Option (List Char)
  | [] => none
  | c :: cs =>
    if c = rbrace then
      match cs.dropWhile Char.isWhitespace with
      | ';' :: rest => some rest
      | _ => constArrowBody cs
    else constArrowBody cs

/-- Try to match
`/const\s+safeInsertChild\s*=\s*\([^)]*\)\s*=>\s*\{[\s\S]*?\}\s*;/` at the
head, returning the rest after the match. -/
def tryConstArrowAt (cs : List Char) : Option (List Char) :=
  if isPrefixOfL "const".data cs then
    let after := cs.drop 5
    let ws := after.takeWhile Char.isWhitespace
    if ws = [] then none
    else
      let after2 := after.drop ws.length
      if isPrefixOfL "safeInsertChild".data after2 then
        let after3 := (after2.drop "safeInsertChild".data.length).dropWhile Char.isWhitespace
        match after3 with
        | '=' :: after4 =>
          (match after4.dropWhile Char.isWhitespace with
           | '(' :: after5 =>
             let params := after5.takeWhile (fun c => c ≠ ')')
             (match after5.drop params.length with
              | ')' :: after6 =>
                (match after6.dropWhile Char.isWhitespace with
                 | '=' :: '>' :: after7 =>
                   (match after7.dropWhile Char.isWhitespace with
                    | b :: after8 =>
                      if b = lbrace then constArrowBody after8 else none
                    | [] => none)
                 | _ => none)
              | _ => none)
           | _ => none)
        | _ => none
      else none
  else none

/-- Global removal of nested `const safeInsertChild = (...) => {...};`
declarations. -/
def constArrowRemoveGo : Nat → List Char → List Char → List Char
  | 0, acc, rest => acc.reverse ++ rest
  | _ + 1, acc, [] => acc.reverse
  | Nat.succ fuel, acc, c :: cs =>
    match tryConstArrowAt (c :: cs) with
    | some rest => constArrowRemoveGo fuel acc rest
    | none => constArrowRemoveGo fuel (c :: acc) cs

/-- The fixed placeholder-constant table of `applyCodeGuards`. -/
def tokenConstants : List (String × String) :=
  [ ("THEME_COLLECTION_KEY", "39e0c2b9cd40942595f053c590c74e1123f4e317")
  , ("RADIUS_COLLECTION_KEY", "8e172dafc41cff80fc32c6ef5b2519ea51091ff7")
  , ("PRIMITIVE_COLLECTION_KEY", "d6673925cad31c3f25349c1469ca4288495979e2") ]

/-- Try to match `const\s+NAME\s*=\s*"([^"]+)"` at the head, returning the
rest after the closing quote. -/
def tryTokenConstAt (name : String) (cs : List Char) : Option (List Char) :=
  if isPrefixOfL "const".data cs then
    let after := cs.drop 5
    let ws := after.takeWhile Char.isWhitespace
    if ws = [] then none
    else
      let after2 := after.drop ws.length
      if isPrefixOfL name.data after2 then
        match (after2.drop name.data.length).dropWhile Char.isWhitespace with
        | '=' :: after3 =>
          (match after3.dropWhile Char.isWhitespace with
           | '"' :: after4 =>
             let inner := after4.takeWhile (fun c => c ≠ '"')
             if inner = [] then none
             else
               (match after4.drop inner.length with
                | '"' :: rest => some rest
                | _ => none)
           | _ => none)
        | _ => none
      else none
  else none

/-- Global replace of one placeholder-constant declaration with the fixed
real value (`const NAME = "VALUE"`). -/
def replaceTokenConstGo (name value : String) :
    Nat → List Char → List Char → List Char
  | 0, acc, rest => acc.reverse ++ rest
  | _ + 1, acc, [] => acc.reverse
  | Nat.succ fuel, acc, c :: cs =>
    match tryTokenConstAt name (c :: cs) with
    | some rest =>
      let replacement := "const " ++ name ++ " = \"" ++ value ++ "\""
      replaceTokenConstGo name value fuel (replacement.data.reverse ++ acc) rest
    | none => replaceTokenConstGo name value fuel (c :: acc) cs

/-- One `tokenConstants.forEach` replacement pass. -/
def replaceTokenConst (name value : String) (code : String) : String :=
  ⟨replaceTokenConstGo name value (code.data.length + 1) [] code.data⟩

/-- `applyCodeGuards`: deterministic post-processing of generated code. -/
def applyCodeGuards (code : String) : String :=
  if code = "" then code
  else
    let patched := code
    let hasInsertChild := strContains patched ".insertChild("
    let patched :=
      if hasInsertChild then
        let p1 : List Char := insertChildGo (patched.data.length + 1) [] patched.data
        let p2 : List Char :=
          if !(hasFuncSafeInsertChild p1) then safeInsertHelper.data ++ p1 else p1
        (⟨constArrowRemoveGo (p2.length + 1) [] p2⟩ : String)
      else patched
    tokenConstants.foldl (fun p t => replaceTokenConst t.1 t.2 p) patched

/-! ## Step: `planStrategy` -/

/-- A raw `expectedVariantProps` JSON value (`nonObj` models a present
value that is not an object). -/
inductive RawVariantProps where
  | obj (props : List (String × String))
  | nonObj
deriving Repr, DecidableEq

/-- A TODO item as parsed from planning JSON, before normalization. -/
structure RawTodoItem where
  id : Option String
  order : Int
  task : String
  type : String
  targetNode : Option String
  targetNodeId : Option String
  scenarioId : Option String
  expectedVariantProps : Option RawVariantProps
  dependencies : List String
deriving Repr, DecidableEq

/-- A `PlanningResult` as parsed from model JSON, before normalization
(`todoList := none` models an absent or non-array value). -/
structure RawPlanningResult where
  intent : String
  strategy : String
  confidence : ℚ
  scenarioStrategy : Option String
  scenarios : Option (List ScenarioSpec)
  defaultScenarioId : Option String
  scope : PlanScope
  todoList : Option (List RawTodoItem)
  risks : List RiskItem
  rollbackStrategy : Option String
deriving Repr, DecidableEq

/-- The fallback plan used when no JSON object can be parsed out of the
planning response. -/
def fallbackPlanning (userPrompt : String) : RawPlanningResult :=
  { intent := userPrompt
    strategy := "create"
    confidence := (1 : ℚ) / 2
    scenarioStrategy := none
    scenarios := none
    defaultScenarioId := none
    scope := { targetNodes := [], newComponents := [], reusableNodes := [] }
    todoList := some []
    risks := []
    rollbackStrategy := some "Revert all changes" }

/-- Normalization of one planning TODO (`planningResult.todoList.map`). -/
def normalizeTodo (defaultScenarioId : Option String) (index : Nat)
    (t : RawTodoItem) : TodoItem :=
  let id :=
    match strT t.id with
    | some i => i
    | none => "todo_" ++ Nat.repr (index + 1)
  let pair :=
    if (strT t.targetNodeId).isNone && (strT t.targetNode).isSome then
      (t.targetNode, t.targetNode)
    else if (strT t.targetNode).isNone && (strT t.targetNodeId).isSome then
      (t.targetNodeId, t.targetNodeId)
    else (t.targetNodeId, t.targetNode)
  let scenarioId :=
    if (strT t.scenarioId).isNone then defaultScenarioId else t.scenarioId
  { id := id
    order := t.order
    task := t.task
    type := t.type
    targetNodeId := pair.1
    targetNode := pair.2
    scenarioId := scenarioId
    expectedVariantProps :=
      match t.expectedVariantProps with
      | some (.obj l) => some l
      | some .nonObj => none
      | none => none
    dependencies := t.dependencies }

/-- `planStrategy`.  The oracle carries the completion-service outcome:
`.error` models a thrown request, `.ok none` a response without a parsable
JSON object (which falls back to `fallbackPlanning`), `.ok (some pr)` the
parsed planning JSON. -/
def planStrategy (s : WorkflowState)
    (outcome : Except String (Option RawPlanningResult)) : WorkflowState :=
  let s := pushThought s ("📋 사용자 요청 전략 수립 중: \"" ++ s.userPrompt ++ "\"")
  match outcome with
  | .error msg =>
    { s with error := some ("전략 수립 실패: " ++ msg), currentStep := "error" }
  | .ok parsed =>
    let pr := parsed.getD (fallbackPlanning s.userPrompt)
    let pr :=
      if (strT pr.scenarioStrategy).isNone then
        { pr with scenarioStrategy := some "variant" }
      else pr
    let pr := if pr.scenarios.isNone then { pr with scenarios := some [] } else pr
    let pr :=
      if (pr.scenarios.getD []).length = 0 then
        let fallbackScenarioId := (strT pr.defaultScenarioId).getD "default"
        { pr with
          scenarios := some [{ id := fallbackScenarioId, name := "기본 시나리오",
                               description := some pr.intent,
                               strategy := (pr.scenarioStrategy).getD "variant" }]
          defaultScenarioId := some fallbackScenarioId }
      else pr
    let pr :=
      if (strT pr.defaultScenarioId).isNone && (pr.scenarios.getD []).length > 0 then
        { pr with defaultScenarioId :=
            ((pr.scenarios.getD []).head?.map (fun sc => sc.id)) }
      else pr
    let normalizedTodoList :=
      (pr.todoList).map (fun l =>
        (l.enum).map (fun p => normalizeTodo pr.defaultScenarioId p.1 p.2))
    let plan : PlanningResult :=
      { intent := pr.intent, strategy := pr.strategy, confidence := pr.confidence
        scenarioStrategy := pr.scenarioStrategy, scenarios := pr.scenarios
        defaultScenarioId := pr.defaultScenarioId, scope := pr.scope
        todoList := normalizedTodoList, risks := pr.risks
        rollbackStrategy := pr.rollbackStrategy }
    let s := { s with plan := some plan }
    match normalizedTodoList with
    | none =>
      { s with
        error := some "전략 수립 실패: Cannot read properties of undefined (reading 'length')"
        currentStep := "error" }
    | some todos =>
      let s := pushThought s ("🎯 전략 수립 완료: " ++ plan.strategy ++
        " 전략, TODO " ++ Nat.repr todos.length ++ "개 생성")
      let s := { s with currentStep := "figma-design" }
      clearRequestedContext s

/-! ## Step: `designTodos` -/

/-- A `TodoDesign` as parsed from design JSON. -/
structure RawTodoDesign where
  todoId : Option String
  task : String
  targetNode : Option String
  targetNodeId : Option String
  scenarioId : Option String
  design : Option DesignSpec
deriving Repr, DecidableEq

/-- `designData.dependencies` as parsed from design JSON. -/
structure RawDeps where
  executionOrder : Option (List String)
  parentChildMap : Option (List (String × String))
deriving Repr, DecidableEq

/-- The design JSON payload. -/
structure RawDesignData where
  todoDesigns : Option (List RawTodoDesign)
  metadata : Option DesignMetadata
  dependencies : Option RawDeps
deriving Repr, DecidableEq

/-- The empty design spec produced by spreading an absent `todo.design`. -/
def emptyDesignSpec : DesignSpec :=
  { nodeType := none, nodeName := none, description := none, component := none
    parent := none, expectedVariantProps := none }

/-- Normalization of one todo design (`designData.todoDesigns.map`). -/
def normalizeTodoDesign (plan : PlanningResult) (index : Nat)
    (todo : RawTodoDesign) : TodoDesign :=
  let base := (todo.design).getD emptyDesignSpec
  { todoId := (strT todo.todoId).getD ("todo_" ++ Nat.repr (index + 1))
    task := todo.task
    scenarioId :=
      match strT todo.scenarioId with
      | some v => some v
      | none =>
        match strT ((todo.todoId).bind (fun tid =>
            ((plan.todoList.getD []).find? (fun t => t.id = tid)).bind
              (fun t => t.scenarioId))) with
        | some v => some v
        | none => plan.defaultScenarioId
    targetNodeId :=
      if (strT todo.targetNodeId).isSome then todo.targetNodeId else todo.targetNode
    targetNode :=
      if (strT todo.targetNode).isSome then todo.targetNode else todo.targetNodeId
    design := { base with expectedVariantProps :=
        ((todo.design).bind (fun d => d.expectedVariantProps)) } }

/-- Insertion-ordered counter bump (`scenarioCounts[strategy] =
(scenarioCounts[strategy] || 0) + 1`). -/
def bumpCount (m : List (String × Int)) (k : String) : List (String × Int) :=
  if m.any (fun p => p.1 = k) then
    m.map (fun p => if p.1 = k then (p.1, p.2 + 1) else p)
  else m ++ [(k, 1)]

/-- The module-level component-guide cache (`component-guide.ts`): it is
created empty and never populated. -/
def componentGuideCache : List (String × String) := []

/-- `getComponentGuides`. -/
def getComponentGuides (componentNames : List String) : List (String × String) :=
  componentNames.foldl (fun acc name =>
    match mapGet componentGuideCache name with
    | some g => acc ++ [(name, g)]
    | none => acc) []

/-- `designTodos`.  The oracle carries the completion-service outcome:
`.ok (content, parsed)` holds the raw response text plus the parsed design
JSON (`none` models the `designData`-undefined `TypeError` path). -/
def designTodos (s : WorkflowState)
    (outcome : Except String (String × Option RawDesignData)) : WorkflowState :=
  let s := pushThought s "🎨 TODO별 구체적인 디자인 결정 중..."
  match s.plan with
  | none =>
    { s with error := some "Planning 결과가 없습니다. Planning 단계를 먼저 수행해주세요."
             currentStep := "error" }
  | some plan =>
    match outcome with
    | .error msg =>
      { s with error := some ("디자인 결정 실패: " ++ msg), currentStep := "error" }
    | .ok (responseContent, parsedOpt) =>
      match parsedOpt with
      | none =>
        { s with
          error := some "디자인 결정 실패: Cannot read properties of undefined (reading 'todoDesigns')"
          currentStep := "error" }
      | some designData =>
        let normalizedTodoDesigns :=
          ((designData.todoDesigns.getD []).enum).map
            (fun p => normalizeTodoDesign plan p.1 p.2)
        match designData.metadata, plan.todoList with
        | none, none =>
          { s with
            error := some "디자인 결정 실패: Cannot read properties of undefined (reading 'length')"
            currentStep := "error" }
        | metadataOpt, _ =>
          let metadata := metadataOpt.getD
            { designSystemComponents := 0
              customElements := Int.ofNat (plan.todoList.getD []).length
              complexityScore := 5
              estimatedRenderTime := 1000
              scenarioCoverage := none }
          let metadata :=
            if metadata.scenarioCoverage.isNone && normalizedTodoDesigns.length > 0 then
              let scenarioCounts := normalizedTodoDesigns.foldl
                (fun counts todo =>
                  match strT todo.scenarioId with
                  | none => counts
                  | some sid =>
                    let scenario := (plan.scenarios.getD []).find? (fun sc => sc.id = sid)
                    let strategy :=
                      match strT (scenario.map (fun sc => sc.strategy)) with
                      | some st => st
                      | none =>
                        match strT plan.scenarioStrategy with
                        | some st => st
                        | none => "variant"
                    bumpCount counts strategy) []
              let cov : ScenarioCoverage :=
                { total := (scenarioCounts.map (fun p => p.2)).sum
                  strategies := scenarioCounts }
              { metadata with scenarioCoverage := some cov }
            else metadata
          let s := { s with
            design := some
              { todoDesigns := normalizedTodoDesigns
                metadata := metadata
                executionOrder :=
                  (designData.dependencies.bind (fun d => d.executionOrder)).getD []
                parentChildMap :=
                  mapOfPairs ((designData.dependencies.bind (fun d => d.parentChildMap)).getD [])
                scenarios := plan.scenarios }
            analysisResult := some responseContent }
          let s := pushThought s ("✨ 디자인 결정 완료: " ++
            Nat.repr normalizedTodoDesigns.length ++ "개 TODO별 구체적인 디자인 결정")
          let s := { s with messages := s.messages ++ [responseContent] }
          let componentNames := dedupFirst (normalizedTodoDesigns.foldl
            (fun acc td =>
              match strT ((td.design.component).map (fun c => c.name)) with
              | some n => acc ++ [n]
              | none => acc) [])
          let s :=
            if componentNames.length > 0 then
              { s with componentGuides := some (getComponentGuides componentNames) }
            else s
          let s := { s with currentStep := "generate" }
          clearRequestedContext s

/-! ## Step: `generateCode` -/

/-- `generateCode`.  The `parse` oracle backs `buildLearningGuidance`; the
completion outcome carries the raw response text. -/
def generateCode (s : WorkflowState) (parse : String → Option JsonValue)
    (outcome : Except String String) : WorkflowState :=
  let s := pushThought s ("🎨 TODO 기반 Figma 코드 생성 중..." ++
    (if s.retryCount > 0 then
       " (재시도 " ++ Nat.repr s.retryCount ++ "/" ++ Nat.repr s.maxRetries ++ ")"
     else ""))
  match s.plan, s.design with
  | some plan, some _ =>
    let learningGuidance := buildLearningGuidance parse s.learning
    let s :=
      match learningGuidance with
      | some g =>
        (match strT g.summary with
         | some summary =>
           let summaryText :=
             match g.guides with
             | some gs =>
               if gs.length > 0 then
                 summary ++ " (세부 " ++ Nat.repr gs.length ++ "항목)"
               else summary
             | none => summary
           pushThought s ("📚 재시도 가이드 적용: " ++ summaryText)
         | none => s)
      | none => s
    match outcome with
    | .error msg =>
      { s with error := some ("코드 생성 실패: " ++ msg), currentStep := "error" }
    | .ok responseContent =>
      match plan.todoList with
      | none =>
        { s with
          error := some "코드 생성 실패: Cannot read properties of undefined (reading 'length')"
          currentStep := "error" }
      | some todos =>
        let rawCode := extractCode responseContent
        let figmaCode := applyCodeGuards rawCode
        let s := { s with
          generation := some
            { code := figmaCode
              metadata :=
                { apiCalls := [], nodeOperations := []
                  estimatedExecutionTime := 1000
                  estimatedNodeCount := todos.length * 2
                  codePatterns := ["todo-driven", "safe-node-access", "error-handling"]
                  safetyChecks := ["null-check", "readonly-check", "promise-catch"] }
              todoImplementation := mapOfPairs (todos.map (fun todo =>
                (todo.id, { todoId := todo.id, codeLines := (0, 0),
                            implemented := true })))}
          generatedCode := some figmaCode }
        let s := pushThought s ("✅ 코드 생성 완료: " ++
          Nat.repr figmaCode.data.length ++ " 문자, " ++
          Nat.repr todos.length ++ "개 TODO 구현")
        let s := { s with currentStep := "validate" }
        clearRequestedContext s
  | _, _ =>
    { s with error := some "Planning 또는 Design 결과가 없습니다.", currentStep := "error" }

/-! ## Step: `verifyExecution` (Verification Matcher) -/

/-- `todoPropertyHints`. -/
def todoPropertyHints : List (String × List String) :=
  [ ("style", ["fills", "text", "effects", "variables", "strokes"])
  , ("modify", ["layout", "size", "constraints", "component", "variables",
                "text", "fills", "effects"])
  , ("delete", [])
  , ("create", ["name", "layout", "component", "text", "fills"]) ]

/-- `compareVariantProps`: `none` models the `undefined` result (no
expectation), `some b` a definite verdict. -/
def compareVariantProps (actual expected : Option (List (String × String))) :
    Option Bool :=
  match expected with
  | none => none
  | some e =>
    if e.length = 0 then none
    else
      match actual with
      | none => some false
      | some a =>
        some (e.all (fun kv =>
          match mapGet a kv.1 with
          | none => false
          | some av => jsToLower av = jsToLower kv.2))

/-- One evaluation row of the matcher. -/
structure Evaluation where
  todo : TodoItem
  matched : Bool
  reason : String
  matchedNodeId : Option String
deriving Repr, DecidableEq

/-- The mutable bookkeeping of the matcher loop. -/
structure MatchAccum where
  todoNodeMatches : List (String × (String × Option String))
  nodeIdToCreateTodo : List (String × String)
  nodeIdToModifyTodo : List (String × String)
  assignedNodeIds : List String
  evaluations : List Evaluation
deriving Repr, DecidableEq

/-- The empty accumulator. -/
def emptyAccum : MatchAccum :=
  { todoNodeMatches := [], nodeIdToCreateTodo := [], nodeIdToModifyTodo := []
    assignedNodeIds := [], evaluations := [] }

/-- The read-only inputs of the matcher loop. -/
structure VerifyCtx where
  planTodoMap : List (String × TodoItem)
  designTodoMap : List (String × TodoDesign)
  defaultScenarioId : Option String
  createdNodes : List CreatedNode
  updatedNodes : List UpdatedNode
  deletedNodeIds : List String
deriving Repr, DecidableEq

/-- `getScenarioId` (a `??` chain: empty strings pass through). -/
def getScenarioId (ctx : VerifyCtx) (todoId : String) : Option String :=
  match (mapGet ctx.planTodoMap todoId).bind (fun t => t.scenarioId) with
  | some v => some v
  | none =>
    match (mapGet ctx.designTodoMap todoId).bind (fun t => t.scenarioId) with
    | some v => some v
    | none => ctx.defaultScenarioId

/-- `recordMatch` bookkeeping update (evaluation row handled by the caller). -/
def recordMatchAccum (acc : MatchAccum) (todoId : String)
    (scenarioId : Option String) (nodeId : String) (lockNode : Bool)
    (matchType : String) : MatchAccum :=
  { acc with
    todoNodeMatches := mapSet acc.todoNodeMatches todoId (nodeId, scenarioId)
    nodeIdToCreateTodo :=
      if matchType = "create" && !(mapHas acc.nodeIdToCreateTodo nodeId) then
        mapSet acc.nodeIdToCreateTodo nodeId todoId
      else acc.nodeIdToCreateTodo
    nodeIdToModifyTodo :=
      if matchType = "modify" || matchType = "style" then
        mapSet acc.nodeIdToModifyTodo nodeId todoId
      else acc.nodeIdToModifyTodo
    assignedNodeIds :=
      if lockNode then setAdd acc.assignedNodeIds nodeId else acc.assignedNodeIds }

/-- The default unmatched reason. -/
def defaultReason : String := "조건을 충족하는 노드를 찾지 못했습니다."

/-- `checkProperties` of the matcher. -/
def checkProperties (expectedProps : List String)
    (expectedVariantProps : Option (List (String × String)))
    (changedProperties : List String)
    (variantProps : Option (List (String × String))) : Bool :=
  let propertyMatch :=
    expectedProps.length = 0 ||
      changedProperties.any (fun prop => expectedProps.contains prop)
  if !propertyMatch then false
  else
    match compareVariantProps variantProps expectedVariantProps with
    | none => true
    | some b => b

/-- The mismatch reason built from an updated node's changed properties. -/
def changedPropsReason (expectedProps changed : List String) : String :=
  "변경 속성(" ++ joinSep ", " changed ++ ")이 기대값(" ++
    joinSep ", " expectedProps ++ ")과 다릅니다."

/-- The branch logic of one matcher iteration: returns the updated
bookkeeping together with (matched, matchedNodeId, reason). -/
def processTodoCore (ctx : VerifyCtx) (acc : MatchAccum) (todo : TodoItem) :
    MatchAccum × Bool × Option String × String :=
  let designTodo := mapGet ctx.designTodoMap todo.id
  let rawName := designTodo.bind (fun d => d.design.nodeName)
  let nodeName := strT (rawName.map jsTrim)
  let targetNodeId :=
    match strT todo.targetNodeId with
    | some v => some v
    | none =>
      match strT todo.targetNode with
      | some v => some v
      | none =>
        match strT (designTodo.bind (fun d => d.targetNodeId)) with
        | some v => some v
        | none => strT (designTodo.bind (fun d => d.targetNode))
  let expectedProps := (mapGet todoPropertyHints todo.type).getD []
  let expectedVariantProps :=
    match todo.expectedVariantProps with
    | some v => some v
    | none => designTodo.bind (fun d => d.design.expectedVariantProps)
  let scenarioId := getScenarioId ctx todo.id
  let check := checkProperties expectedProps expectedVariantProps
  if todo.type = "delete" then
      match targetNodeId with
      | none => (acc, false, none, "삭제 대상 nodeId가 정의되지 않았습니다.")
      | some t =>
        if ctx.deletedNodeIds.contains t then
          (recordMatchAccum acc todo.id scenarioId t false "delete", true, some t,
           "matched")
        else (acc, false, none, "대상 노드가 삭제되지 않았습니다.")
    else if todo.type = "modify" || todo.type = "style" then
      let mt := if todo.type = "style" then "style" else "modify"
      let phase1 : Option (MatchAccum × Bool × Option String × String) × String :=
        match targetNodeId with
        | some t =>
          (match ctx.updatedNodes.find? (fun node => node.id = t) with
           | some u =>
             if check u.changedProperties u.variantProps then
               (some (recordMatchAccum acc todo.id scenarioId u.id false mt, true,
                      some u.id, "matched"), "matched")
             else (none, changedPropsReason expectedProps u.changedProperties)
           | none => (none, "대상 노드가 수정되지 않았습니다."))
        | none => (none, defaultReason)
      match phase1.1 with
      | some done => done
      | none =>
        let reason := phase1.2
        match nodeName with
        | none => (acc, false, none, reason)
        | some nm =>
          let lowerName := jsToLower nm
          match ctx.updatedNodes.find? (fun node =>
              !(mapHas acc.nodeIdToModifyTodo node.id) &&
              (node.name = nm || strContains (jsToLower node.name) lowerName)) with
          | some u =>
            if check u.changedProperties u.variantProps then
              (recordMatchAccum acc todo.id scenarioId u.id false mt, true,
               some u.id, "matched")
            else (acc, false, none, changedPropsReason expectedProps u.changedProperties)
          | none => (acc, false, none, reason)
    else
      let parentInfo := designTodo.bind (fun d => d.design.parent)
      let expectedParentId : Option String :=
        match strT (parentInfo.bind (fun p => p.existingNodeId)) with
        | some e => some e
        | none =>
          match strT (parentInfo.bind (fun p => p.todoId)) with
          | some ptid => (mapGet acc.todoNodeMatches ptid).map (fun m => m.1)
          | none => none
      let phase1 : Option (MatchAccum × Bool × Option String × String) × String :=
        match nodeName with
        | some nm =>
          let lowerName := jsToLower nm
          let candidates := ctx.createdNodes.filter (fun node =>
            (node.name = nm || strContains (jsToLower node.name) lowerName) &&
            !(acc.assignedNodeIds.contains node.id) &&
            (match strT expectedParentId with
             | some p => node.parentId = some p
             | none => true))
          let createdMatch :=
            match candidates.head? with
            | some c => some c
            | none =>
              ctx.createdNodes.find? (fun node =>
                !(acc.assignedNodeIds.contains node.id) &&
                (node.name = nm || strContains (jsToLower node.name) lowerName))
          (match createdMatch with
           | some c =>
             (some (recordMatchAccum acc todo.id scenarioId c.id true "create",
                    true, some c.id, "matched"), "matched")
           | none => (none, "요구된 이름의 노드를 생성하지 않았습니다."))
        | none => (none, defaultReason)
      match phase1.1 with
      | some done => done
      | none =>
        let reason := phase1.2
        match targetNodeId with
        | some t =>
          (match ctx.createdNodes.find? (fun node => node.id = t) with
           | some d =>
             if !(acc.assignedNodeIds.contains d.id) then
               (recordMatchAccum acc todo.id scenarioId d.id true "create", true,
                some d.id, "matched")
             else (acc, false, none, reason)
           | none => (acc, false, none, "생성된 노드 ID와 일치하지 않습니다."))
        | none => (acc, false, none, reason)

/-- Process one TODO of the matcher loop (`for (const todo of planTodos)`):
run the branch logic and push the evaluation row. -/
def processTodo (ctx : VerifyCtx) (acc : MatchAccum) (todo : TodoItem) :
    MatchAccum :=
  let outcome := processTodoCore ctx acc todo
  let acc' := outcome.1
  { acc' with evaluations := acc'.evaluations ++
      [{ todo := todo, matched := outcome.2.1, reason := outcome.2.2.2,
         matchedNodeId := outcome.2.2.1 }] }

/-- The full matcher loop. -/
def runMatcher (ctx : VerifyCtx) (todos : List TodoItem) : MatchAccum :=
  todos.foldl (processTodo ctx) emptyAccum

/-- The verify-step threshold test `completionRate < 80` where
`completionRate = (completedCount / totalTodos) * 100`, cross-multiplied
into exact integer arithmetic (equivalent for `totalTodos > 0`; the JS
floating-point evaluation agrees on all inputs of this shape). -/
def completionRateLt80 (completedCount totalTodos : Nat) : Bool :=
  decide (completedCount * 100 < 80 * totalTodos)

/-- JS `Number.prototype.toFixed(1)` on a non-negative rational. -/
def toFixed1 (q : ℚ) : String :=
  let n := (⌊q * 10 + 1 / 2⌋).toNat
  Nat.repr (n / 10) ++ "." ++ Nat.repr (n % 10)

/-- JS `||` chain on three optional strings keeping the last raw value
(`a || b || c` with truthiness on the first two). -/
def scenarioChain (a b c : Option String) : Option String :=
  match strT a with
  | some v => some v
  | none =>
    match strT b with
    | some v => some v
    | none => c

/-- Entries of `ExecutionResult.nodes.created` built by `verifyExecution`. -/
def buildCreatedEntry (ctx : VerifyCtx) (accum : MatchAccum)
    (reportTimestamp : Nat) (node : CreatedNode) : CreatedEntry :=
  let todoId := (mapGet accum.nodeIdToCreateTodo node.id).getD ""
  let planTodo := if todoId ≠ "" then mapGet ctx.planTodoMap todoId else none
  let designTodo := if todoId ≠ "" then mapGet ctx.designTodoMap todoId else none
  { id := node.id
    name := node.name
    type := node.type
    todoId := todoId
    timestamp := reportTimestamp
    scenarioId := scenarioChain
      ((mapGet accum.todoNodeMatches todoId).bind (fun m => m.2))
      (planTodo.bind (fun t => t.scenarioId))
      (designTodo.bind (fun t => t.scenarioId))
    componentKey := node.componentKey
    componentName := node.componentName
    variantProps := node.variantProperties }

/-- Entries of `ExecutionResult.nodes.modified` built by `verifyExecution`. -/
def buildModifiedEntry (ctx : VerifyCtx) (accum : MatchAccum)
    (node : UpdatedNode) : ModifiedEntry :=
  let todoId := (mapGet accum.nodeIdToModifyTodo node.id).getD ""
  let planTodo := if todoId ≠ "" then mapGet ctx.planTodoMap todoId else none
  let designTodo := if todoId ≠ "" then mapGet ctx.designTodoMap todoId else none
  let expectedVariantProps :=
    match planTodo.bind (fun t => t.expectedVariantProps) with
    | some v => some v
    | none => designTodo.bind (fun t => t.design.expectedVariantProps)
  { id := node.id
    changes := node.changedProperties
    todoId := todoId
    scenarioId := scenarioChain
      ((mapGet accum.todoNodeMatches todoId).bind (fun m => m.2))
      (planTodo.bind (fun t => t.scenarioId))
      (designTodo.bind (fun t => t.scenarioId))
    variantMatch :=
      match expectedVariantProps with
      | some e => compareVariantProps node.variantProps (some e)
      | none => none
    variantProps := node.variantProps
    componentKey := node.componentKey
    componentName := node.componentName }

/-- The structured `missing_todos` learning payload of `verifyExecution`
(`JSON.stringify(learningPayload, null, 2)`). -/
def missingTodosPayload (previous : Option String)
    (missingEvaluations : List Evaluation) : String :=
  jsonStringifyAt (.obj
    [ ("type", .str "missing_todos")
    , ("previous", match previous with
        | some l => .str l
        | none => .null)
    , ("todos", .arr (missingEvaluations.map (fun ev => .obj
        [ ("id", .str ev.todo.id)
        , ("task", .str ev.todo.task)
        , ("todoType", .str ev.todo.type)
        , ("reason", .str ev.reason) ])))]) 0

/-- `state.design?.todoDesigns || []`. -/
def verifyDesignTodos (s : WorkflowState) : List TodoDesign :=
  ((s.design).map (fun d => d.todoDesigns)).getD []

/-- The matcher inputs assembled by `verifyExecution`. -/
def verifyCtxOf (s : WorkflowState) (executionReport : ExecutionReport)
    (planTodos : List TodoItem) : VerifyCtx :=
  { planTodoMap := mapOfPairs (planTodos.map (fun t => (t.id, t)))
    designTodoMap := mapOfPairs ((verifyDesignTodos s).map (fun t => (t.todoId, t)))
    defaultScenarioId := s.plan.bind (fun p => p.defaultScenarioId)
    createdNodes := executionReport.createdNodes
    updatedNodes := executionReport.updatedNodes
    deletedNodeIds := executionReport.deletedNodeIds }

/-- `totalTodos = planTodos.length || designTodos.length || 1`. -/
def verifyTotalTodos (planTodos : List TodoItem) (designTodos : List TodoDesign) :
    Nat :=
  if planTodos.length ≠ 0 then planTodos.length
  else if designTodos.length ≠ 0 then designTodos.length
  else 1

/-- `completedCount = matchedTodoIds.size` (distinct matched TODO ids). -/
def verifyCompletedCount (ctx : VerifyCtx) (planTodos : List TodoItem) : Nat :=
  (dedupFirst (((runMatcher ctx planTodos).evaluations.filter
    (fun ev => ev.matched)).map (fun ev => ev.todo.id))).length

/-- The unmatched evaluations of the matcher run. -/
def verifyMissing (ctx : VerifyCtx) (planTodos : List TodoItem) :
    List Evaluation :=
  (runMatcher ctx planTodos).evaluations.filter (fun ev => !ev.matched)

/-- `verifyExecution`.  The legacy `executionResult`-without-`nodes`
conversion branch of the source is unrepresentable in the typed model
(our `ExecutionResult.nodes` is always present) and therefore elided. -/
def verifyExecution (s : WorkflowState) (now : Nat) : WorkflowState :=
  let s := pushThought s "✅ TODO 완료 검증 중..."
  match s.collectedContext.assets.executionReport with
  | none => { s with requestedContext := executionReportRequest "최근 코드 실행 결과" }
  | some executionReport =>
    let s := { s with executionReport := some executionReport }
    let s := clearRequestedContext s
    match s.plan.bind (fun p => p.todoList) with
    | none => { s with currentStep := "complete", isComplete := true }
    | some planTodos =>
      let designTodos := verifyDesignTodos s
      let ctx := verifyCtxOf s executionReport planTodos
      let accum := runMatcher ctx planTodos
      let totalTodos := verifyTotalTodos planTodos designTodos
      let completedCount := verifyCompletedCount ctx planTodos
      let completionRate : ℚ := ((completedCount : ℚ) / (totalTodos : ℚ)) * 100
      let s := pushThought s ("📊 검증 완료: " ++ Nat.repr completedCount ++ "/" ++
        Nat.repr totalTodos ++ " TODO 완료 (" ++ toFixed1 completionRate ++
        "%) - 생성 노드 " ++ Nat.repr executionReport.createdNodeIds.length ++ "개")
      let createdNodeEntries := ctx.createdNodes.map
        (buildCreatedEntry ctx accum executionReport.timestamp)
      let modifiedEntries := ctx.updatedNodes.map (buildModifiedEntry ctx accum)
      let deletedEntries := executionReport.deletedNodeIds
      let reportErrors : List LogError :=
        match strT executionReport.error with
        | some e => [{ message := e, type := "execution", stack := none }]
        | none => []
      let s :=
        match s.executionResult with
        | none =>
          let fresh : ExecutionResult :=
            { success := (strT executionReport.error).isNone
              nodes := { created := createdNodeEntries, modified := modifiedEntries,
                         deleted := deletedEntries }
              logs := { info := [], warnings := [], errors := reportErrors }
              performance := { totalTime := executionReport.durationMs
                               apiCallTime := executionReport.durationMs
                               renderTime := 0, memoryUsage := 0 }
              promises := { resolved := 0
                            rejected := if (strT executionReport.error).isSome then 1 else 0
                            rejectionReasons :=
                              match strT executionReport.error with
                              | some e => [e]
                              | none => [] }
              report := some executionReport }
          { s with executionResult := some fresh }
        | some er =>
          let updated : ExecutionResult :=
            { er with
              success := (strT executionReport.error).isNone
              nodes := { created := createdNodeEntries, modified := modifiedEntries,
                         deleted := deletedEntries }
              logs := { er.logs with errors := reportErrors }
              report := some executionReport }
          { s with executionResult := some updated }
      let missingEvaluations := verifyMissing ctx planTodos
      let s :=
        if missingEvaluations.length > 0 then
          let missingSummary := joinSep "\n" (missingEvaluations.map (fun ev =>
            "- [" ++ ev.todo.type ++ "] " ++ ev.todo.task ++ " :: " ++ ev.reason))
          let s := pushThought s ("⚠️ 미완료 TODO " ++
            Nat.repr missingEvaluations.length ++ "개:\n" ++ missingSummary)
          let payloadStr := missingTodosPayload s.learning missingEvaluations
          let s := { s with learning := some payloadStr }
          { s with runLog := s.runLog ++
              [{ step := "verify:missing", timestamp := now, summary := payloadStr,
                 requestedContext := some (cloneRequestedContext s.requestedContext) }] }
        else s
      if completionRateLt80 completedCount totalTodos && s.retryCount < 1 then
        let s := { s with partialRetry := true, retryCount := s.retryCount + 1 }
        let s := pushThought s "🔄 실패한 TODO 재시도 중..."
        { s with currentStep := "generate" }
      else
        { s with currentStep := "complete", isComplete := true }

/-! ## `executeStep` -/

/-- The external inputs consumed by one `executeStep` call: the wall clock,
the `JSON.parse` oracle of `buildLearningGuidance`, and the four
collaborator outcomes (only the one of the executed step is read). -/
structure StepOracle where
  now : Nat
  parseJson : String → Option JsonValue
  planOutcome : Except String (Option RawPlanningResult)
  designOutcome : Except String (String × Option RawDesignData)
  generateOutcome : Except String String
  validateOutcome : Except Unit TsValidationResult

/-- `StepResult`. -/
structure StepResult where
  state : WorkflowState
  completed : Bool
  step : String
  nextStep : String
  requestedContext : RequestedContext

/-- `ensureStateDefaults`: fills absent fields with defaults; the typed
model is total, so this is the requested-context clone only. -/
def ensureStateDefaults (s : WorkflowState) : WorkflowState :=
  { s with requestedContext := cloneRequestedContext s.requestedContext }

/-- The step names handled by the `executeStep` switch (excluding the
`default` arm). -/
def knownSteps : List String :=
  ["product-blueprint", "planning", "figma-design", "generate", "validate",
   "execute", "verify", "handleError", "complete"]

/-- `state.currentStep || "product-blueprint"`. -/
def currentStepName (s : WorkflowState) : String :=
  if s.currentStep = "" then "product-blueprint" else s.currentStep

/-- `executeStep`. -/
def executeStep (rawState : WorkflowState)
    (contextUpdate : Option ContextUpdatePayload) (o : StepOracle) : StepResult :=
  let state := ensureStateDefaults rawState
  let state :=
    match contextUpdate with
    | some u => applyContextUpdate state u
    | none => state
  let step := currentStepName state
  let state :=
    if step = "product-blueprint" then buildProductBlueprint state
    else if step = "planning" then planStrategy state o.planOutcome
    else if step = "figma-design" then designTodos state o.designOutcome
    else if step = "generate" then generateCode state o.parseJson o.generateOutcome
    else if step = "validate" then validateCode state o.validateOutcome o.now
    else if step = "execute" then executeCode state
    else if step = "verify" then verifyExecution state o.now
    else if step = "handleError" then handleError state o.now
    else if step = "complete" then { state with isComplete := true }
    else
      { state with error := some ("알 수 없는 스텝입니다: " ++ step)
                   isComplete := true
                   currentStep := "complete" }
  let state := { state with stepHistory := state.stepHistory ++ [step]
                            lastStepCompleted := some step
                            lastUpdatedAt := some o.now }
  let nextStep := state.currentStep
  let summaryThought := state.thoughts.getLast?
  let summary :=
    match strT summaryThought with
    | some t => t
    | none => step ++ " 단계 완료"
  let state := appendRunLog state step summary o.now
  { state := state
    completed := state.isComplete
    step := step
    nextStep := nextStep
    requestedContext := cloneRequestedContext state.requestedContext }

/-! ## JSON round-trip of the state (`route.ts` boundary)

Between step calls the state crosses `NextResponse.json` /
`request.json()`: every field of the model is plain data except the two
JS `Map`-typed fields (`generation.todoImplementation` and
`design.dependencies.parentChildMap`), which `JSON.stringify` renders as
bare braces and which therefore come back empty. -/

/-- The JSON serialize/deserialize round trip of a `WorkflowState`. -/
def jsonRoundTrip (s : WorkflowState) : WorkflowState :=
  { s with
    generation := s.generation.map (fun g => { g with todoImplementation := [] })
    design := s.design.map (fun d => { d with parentChildMap := [] }) }

/-! ## `TypeScriptValidator` (`typescript-validator.ts`)

The TypeScript AST is embedded shallowly: the only node shapes the
validator's traversal inspects are object literals (for
`validateColorFormat`) and `figma.<method>` property accesses (for
`validateFigmaApiUsage`); every other node only contributes its children.
Source positions are not modeled (`line := 0`, `code := ""`); the compiler's
semantic diagnostics and the one regex-based pattern rule over the raw
script text are oracles. -/

/-- One property of an object literal as seen by `validateColorFormat`:
`assign` is a `PropertyAssignment` with an identifier name whose
initializer is a numeric literal iff `value` is `some`. -/
inductive AstProp where
  | assign (name : String) (value : Option ℚ)
  | other
deriving Repr, DecidableEq

/-- The shallow TypeScript AST. -/
inductive Ast where
  | objLit (props : List AstProp) (children : List Ast)
  | figmaAccess (methodName : String) (children : List Ast)
  | node (children : List Ast)
deriving Repr, Inhabited

/-- JS number-to-string for the range-error message (exact for integers
and up to three decimal places; the engine never prints other values). -/
def ratToString (q : ℚ) : String :=
  if q.den = 1 then q.num.repr
  else if (q * 10).den = 1 then
    (q * 10).num.repr ++ "e-1"
  else (q * 100).num.repr ++ "e-2"

/-- `validateColorFormat` on one object literal. -/
def validateColorFormat (props : List AstProp) : Option ValidationError :=
  let hasKey := fun (k : String) => props.any (fun p =>
    match p with
    | .assign n _ => n = k
    | .other => false)
  if hasKey "r" && hasKey "g" && hasKey "b" then
    if hasKey "a" then
      some { type := "COLOR_FORMAT"
             message := "Color objects must not include \"a\" (alpha) property"
             line := 0
             suggestion := "Remove \"a\" property, use only \x7br, g, b\x7d format. Set opacity separately."
             code := "" }
    else
      match props.findSome? (fun p =>
        match p with
        | .assign n (some v) =>
          if (n = "r" || n = "g" || n = "b") && (ratLtB v 0 || ratLtB 1 v) then
            some v
          else none
        | _ => none) with
      | some v =>
        some { type := "COLOR_FORMAT"
               message := "Color values must be between 0 and 1, got " ++ ratToString v
               line := 0
               suggestion := "Convert " ++ ratToString v ++
                 " to 0-1 range (divide by 255 if needed)"
               code := "" }
      | none => none
  else none

/-- The `validMethods` allow-list of `validateFigmaApiUsage`. -/
def validMethods : List String :=
  ["currentPage", "root", "viewport", "mixed", "ui", "clientStorage",
   "parameters", "teamLibrary", "createFrame", "createRectangle", "createText",
   "createEllipse", "createLine", "createPolygon", "createStar", "createVector",
   "createGroup", "createSlice", "createComponent", "createComponentSet",
   "createInstance", "createBooleanOperation", "createPage", "closePlugin",
   "notify", "showUI", "importComponentByKeyAsync", "importStyleByKeyAsync",
   "importComponentSetByKeyAsync", "getLocalPaintStyles", "getLocalTextStyles",
   "getLocalEffectStyles", "getLocalGridStyles", "createPaintStyle",
   "createTextStyle", "createEffectStyle", "createGridStyle", "getNodeById",
   "getNodeByIdAsync", "getStyleById", "loadFontAsync", "listAvailableFontsAsync",
   "exportAsync", "getImageAsync", "loadAsync", "saveAsync", "createImage",
   "createImagePaint", "createSolidPaint", "createGradientPaint", "variables",
   "createVariable", "createVariableCollection"]

/-- `validateFigmaApiUsage` on one `figma.<method>` access. -/
def validateFigmaApiUsage (methodName : String) : Option ValidationError :=
  if !(validMethods.contains methodName) then
    some { type := "FIGMA_API"
           message := "Unknown Figma API method: figma." ++ methodName
           line := 0
           suggestion := "Check Figma Plugin API documentation for correct method name. Common methods include: createFrame, createRectangle, createText, importComponentByKeyAsync"
           code := "" }
  else none

mutual

/-- The `visit` traversal of `validateFigmaSpecifics`. -/
def visitAst : Ast → List ValidationError
  | .objLit props children =>
    (match validateColorFormat props with
     | some e => [e]
     | none => []) ++ visitAstList children
  | .figmaAccess methodName children =>
    (match validateFigmaApiUsage methodName with
     | some e => [e]
     | none => []) ++ visitAstList children
  | .node children => visitAstList children

/-- `ts.forEachChild` recursion. -/
def visitAstList : List Ast → List ValidationError
  | [] => []
  | a :: rest => visitAst a ++ visitAstList rest

end

/-- The fixed error pushed per match of the
`appendChild`/`layoutSizingHorizontal` regex pattern rule. -/
def layoutAfterAppendError : ValidationError :=
  { type := "FIGMA_API_ERROR"
    message := "Setting layout properties after appendChild"
    line := 0
    suggestion := "Set layout properties before adding to parent"
    code := "" }

/-- `validateFigmaSpecifics`: the regex pattern rule over the raw script
(whose match count is the `layoutMatches` oracle) followed by the AST
traversal. -/
def validateFigmaSpecifics (layoutMatches : Nat) (ast : Ast) :
    List ValidationError :=
  List.replicate layoutMatches layoutAfterAppendError ++ visitAst ast

/-- One alternation-based ignore test: the message contains
`pre ++ alt ++ post` for some alternative. -/
def containsAlt (message pre post : String) (alts : List String) : Bool :=
  alts.any (fun alt => strContains message (pre ++ alt ++ post))

/-- `shouldIgnoreTypeError`.  The regex wildcards (`[^']+`, `.*?`) are
approximated by substring conjunction; all fixed alternatives are kept. -/
def shouldIgnoreTypeError (message : String) : Bool :=
  containsAlt message "Property '" "' does not exist on type"
    ["findOne", "find", "length", "characters"] ||
  strContains message "Cannot find name 'mainFrame'" ||
  strContains message "Cannot find name 'selection'" ||
  strContains message "Cannot find name 'Error'" ||
  strContains message "Cannot find name 'console'" ||
  (strContains message "Property '" &&
    containsAlt message "' does not exist on type '" "'"
      ["SceneNode", "PageNode", "DocumentNode"]) ||
  containsAlt message "Property '" "' does not exist on type"
    ["textStyleId", "fontName", "fontSize", "letterSpacing", "lineHeight",
     "textDecoration", "paragraphIndent", "paragraphSpacing", "textCase"] ||
  containsAlt message "Property '" "' does not exist on type"
    ["fills", "strokes", "effects", "constraints", "cornerRadius",
     "topLeftRadius", "topRightRadius", "bottomLeftRadius", "bottomRightRadius"] ||
  containsAlt message "Property '" "' does not exist on type"
    ["layoutMode", "primaryAxisSizingMode", "counterAxisSizingMode",
     "itemSpacing", "paddingTop", "paddingRight", "paddingBottom", "paddingLeft"] ||
  containsAlt message "Property '" "' does not exist on type"
    ["resize", "resizeWithoutConstraints", "rotation", "opacity", "blendMode",
     "isMask", "visible", "locked"] ||
  containsAlt message "Property '" "' does not exist on type"
    ["width", "height", "x", "y", "relativeTransform", "absoluteTransform"] ||
  containsAlt message "Property '" "' does not exist on type"
    ["children", "appendChild", "insertChild", "findChild"] ||
  containsAlt message "Property '" "' does not exist on type"
    ["parent", "remove", "clone", "createInstance"] ||
  strContains message "Type 'VariableValue' is not assignable to type 'number'" ||
  strContains message "Type 'string' is not assignable to type 'number'" ||
  strContains message "Type 'VariableValue' is not assignable to type" ||
  (strContains message "Type '" &&
    strContains message "' must have a '[Symbol.iterator]()' method that returns an iterator") ||
  strContains message "Property '[Symbol.iterator]' is missing in type" ||
  strContains message "Type 'unknown' must have a '[Symbol.iterator]()' method"

/-- `getSuggestionForError`. -/
def getSuggestionForError (message : String) : String :=
  if strContains message "Property" && strContains message "does not exist" then
    "Check property name spelling and Figma API documentation"
  else if strContains message "Type" && strContains message "is not assignable" then
    "Check type compatibility with Figma API interfaces"
  else if strContains message "Cannot find name" then
    "Ensure all variables and functions are properly defined"
  else if strContains message "await" || strContains message "Promise" then
    "Async methods require await keyword. Store result in variable before using."
  else "Review TypeScript and Figma API documentation"

/-- The `generateLearningContext` method of `TypeScriptValidator`
(renamed to avoid the clash with the workflow helper of the same name). -/
def validatorLearningContext (errors : List ValidationError)
    (warnings : List ValidationWarning) : String :=
  if errors.length = 0 && warnings.length = 0 then
    "Code validation successful. No issues found."
  else
    let context := "=== 코드 검증 결과 ===\n\n"
    let context :=
      if errors.length > 0 then
        context ++ "❌ 에러 발견:\n" ++
          joinSep "" ((errors.enum).map (fun p =>
            let index := p.1
            let error := p.2
            "\n" ++ Nat.repr (index + 1) ++ ". " ++ error.type ++ " (" ++
              Nat.repr error.line ++ "번 줄)\n" ++
              "   문제: " ++ error.message ++ "\n" ++
              "   해결방법: " ++ error.suggestion ++ "\n" ++
              (if error.code ≠ "" then "   코드: " ++ error.code ++ "\n" else "")))
      else context
    let context :=
      if warnings.length > 0 then
        context ++ "\n⚠️ 경고:\n" ++
          joinSep "" ((warnings.enum).map (fun p =>
            Nat.repr (p.1 + 1) ++ ". " ++ p.2.message ++ "\n"))
      else context
    context ++ "\n위 문제들을 모두 수정하여 다시 코드를 생성해주세요." ++
      "\n특히 async/await 사용, 변수 할당, 타입 호환성에 주의하세요."

/-- `validateFigmaCode`: semantic diagnostics (an oracle list of
message/line pairs from the compiler) filtered through the ignore list,
then the Figma-specific validations, then the learning context. -/
def validateFigmaCode (typeDiagnostics : List (String × Nat))
    (layoutMatches : Nat) (ast : Ast) : TsValidationResult :=
  let errors := typeDiagnostics.foldl
    (fun acc d =>
      if shouldIgnoreTypeError d.1 then acc
      else acc ++ [{ type := "TYPE_ERROR", message := d.1, line := d.2,
                     suggestion := getSuggestionForError d.1, code := "" }])
    []
  let figmaErrors := validateFigmaSpecifics layoutMatches ast
  let allErrors := errors ++ figmaErrors
  { success := allErrors.length = 0
    errors := allErrors
    warnings := []
    learningContext := validatorLearningContext allErrors [] }

/-- The catch-all failure result of `validateFigmaCode`. -/
def validateFigmaCodeFailure (message : String) : TsValidationResult :=
  { success := false
    errors := [{ type := "VALIDATION_ERROR"
                 message := "TypeScript validation failed: " ++ message
                 line := 0
                 suggestion := "Check code syntax and structure"
                 code := "" }]
    warnings := []
    learningContext := "Validation system error occurred. Please check the code syntax." }

/-! ## Step relation -/

/-- One `executeStep` call with some context update and some collaborator
outcomes. -/
def StepRel (s s' : WorkflowState) : Prop :=
  ∃ u o, (executeStep s u o).state = s'

/-- States reachable from `init` by repeated `executeStep` calls. -/
inductive Reachable (init : WorkflowState) : WorkflowState → Prop
  | refl : Reachable init init
  | step {s s' : WorkflowState} : Reachable init s → StepRel s s' → Reachable init s'

/-! ## Auxiliary predicates used by the statements -/

/-- Does `p` hold of some suffix of the list? -/
def anySuffix (p : List Char → Bool) : List Char → Bool
  | [] => p []
  | c :: cs => p (c :: cs) || anySuffix p cs

/-- Does the script contain a `const NAME = "..."` declaration (a match of
the `tokenConstants` replacement regex)? -/
def hasTokenConst (name : String) (code : String) : Bool :=
  anySuffix (fun suf => (tryTokenConstAt name suf).isSome) code.data

/-- Does this TODO take the matcher's default (create) branch? -/
def isCreateBranch (todo : TodoItem) : Bool :=
  !(todo.type = "delete") && !(todo.type = "modify") && !(todo.type = "style")

/-- Delete-soundness of one matcher evaluation row: a matched `delete` TODO
names a node of `deletedNodeIds`. -/
def deleteSound (ctx : VerifyCtx) (ev : Evaluation) : Prop :=
  ev.todo.type = "delete" → ev.matched = true →
    ∃ t, ev.matchedNodeId = some t ∧ ctx.deletedNodeIds.contains t = true

/-- A matched create-branch row's node id is locked in `assignedNodeIds`. -/
def createLocked (acc : MatchAccum) (ev : Evaluation) : Prop :=
  isCreateBranch ev.todo = true → ev.matched = true →
    ∃ t, ev.matchedNodeId = some t ∧ acc.assignedNodeIds.contains t = true

/-- Two matched create-branch rows never share a matched node id. -/
def createDistinct (e1 e2 : Evaluation) : Prop :=
  isCreateBranch e1.todo = true → e1.matched = true →
  isCreateBranch e2.todo = true → e2.matched = true →
  e1.matchedNodeId ≠ e2.matchedNodeId

/-- The loop invariant of the matcher: delete rows are sound, matched
create rows are locked, and matched create rows are pairwise distinct. -/
def MatcherInv (ctx : VerifyCtx) (acc : MatchAccum) : Prop :=
  (∀ ev ∈ acc.evaluations, deleteSound ctx ev) ∧
  (∀ ev ∈ acc.evaluations, createLocked acc ev) ∧
  acc.evaluations.Pairwise createDistinct

/-- "Validation finds defects": the step's defect condition for each of
the two validation paths (normal TypeScript validation and the fallback
pattern check used when the validator throws). -/
def validationFindsDefects (code : String) :
    Except Unit TsValidationResult → Prop
  | .ok tsValidation =>
    ¬(tsValidation.success = true ∧
      (validateFigmaApi code).validCalls.length > 0 ∧
      (validateFigmaApi code).invalidCalls.length = 0)
  | .error _ => fallbackValidationErrors code ≠ []

instance (code : String) : (o : Except Unit TsValidationResult) →
    Decidable (validationFindsDefects code o)
  | .ok ts => inferInstanceAs (Decidable (¬(ts.success = true ∧
      (validateFigmaApi code).validCalls.length > 0 ∧
      (validateFigmaApi code).invalidCalls.length = 0)))
  | .error _ => inferInstanceAs (Decidable (fallbackValidationErrors code ≠ []))

mutual

/-- The object-literal property lists of an AST in `visit` order. -/
def colorLits : Ast → List (List AstProp)
  | .objLit props children => props :: colorLitsList children
  | .figmaAccess _ children => colorLitsList children
  | .node children => colorLitsList children

/-- `colorLits` over child lists. -/
def colorLitsList : List Ast → List (List AstProp)
  | [] => []
  | a :: rest => colorLits a ++ colorLitsList rest

end

/-- The `{r:1,g:0,b:0,a:0.5}` object literal of testable property 7. -/
def alphaColorProps : List AstProp :=
  [.assign "r" (some 1), .assign "g" (some 0), .assign "b" (some 0),
   .assign "a" (some (qmk 1 2))]

/-- The alpha-property `COLOR_FORMAT` error. -/
def alphaColorError : ValidationError :=
  { type := "COLOR_FORMAT"
    message := "Color objects must not include \"a\" (alpha) property"
    line := 0
    suggestion := "Remove \"a\" property, use only \x7br, g, b\x7d format. Set opacity separately."
    code := "" }

/-! ## Concrete example inputs -/

/-- A minimal TODO item. -/
def exTodo (id ty : String) (target : Option String) : TodoItem :=
  { id := id, order := 1, task := "task " ++ id, type := ty, targetNode := none,
    targetNodeId := target, scenarioId := none, expectedVariantProps := none,
    dependencies := [] }

/-- A minimal normalized plan around a TODO list. -/
def exPlan (todos : List TodoItem) : PlanningResult :=
  { intent := "i", strategy := "create", confidence := 1
    scenarioStrategy := some "variant", scenarios := some []
    defaultScenarioId := some "default"
    scope := { targetNodes := [], newComponents := [], reusableNodes := [] }
    todoList := some todos, risks := [], rollbackStrategy := none }

/-- A minimal updated node. -/
def exUpdated (id name : String) (props : List String) : UpdatedNode :=
  { id := id, name := name, type := "FRAME", parentId := none
    changedProperties := props, componentKey := none, componentName := none
    scenarioId := none, variantProps := none }

/-- A minimal created node. -/
def exCreated (id name : String) : CreatedNode :=
  { id := id, name := name, type := "FRAME", parentId := none, scenarioId := none
    componentKey := none, componentName := none, variantProperties := none }

/-- A minimal execution report. -/
def exReport (created : List CreatedNode) (updated : List UpdatedNode)
    (deleted : List String) : ExecutionReport :=
  { timestamp := 1, durationMs := 1, executedCodeLength := 0
    createdNodes := created, updatedNodes := updated, deletedNodeIds := deleted
    selection := [], createdNodeIds := created.map (fun c => c.id)
    message := none, error := none }

/-- Assets holding an execution report. -/
def exReportAssets (report : ExecutionReport) : AssetsMap :=
  { executionReport := some report, others := [] }

/-- A state sitting at the verify step with a plan and a collected report. -/
def exVerifyState (todos : List TodoItem) (report : ExecutionReport) :
    WorkflowState :=
  { createInitialState "p" none none none 0 with
    currentStep := "verify"
    plan := some (exPlan todos)
    collectedContext :=
      { nodeDetails := [], answers := [], assets := exReportAssets report } }

/-- A minimal generation result. -/
def exGeneration (code : String) : GenerationResult :=
  { code := code
    metadata := { apiCalls := [], nodeOperations := [], estimatedExecutionTime := 1000
                  estimatedNodeCount := 0, codePatterns := [], safetyChecks := [] }
    todoImplementation := [] }

/-- An oracle whose collaborator outcomes are all failures except a fixed
generation response; used to drive concrete traces. -/
def exOracle : StepOracle :=
  { now := 9
    parseJson := fun _ => none
    planOutcome := .ok none
    designOutcome := .ok ("x", some { todoDesigns := none, metadata := none,
                                      dependencies := none })
    generateOutcome := .ok "doSomething();"
    validateOutcome := .ok { success := false, errors := [], warnings := [],
                             learningContext := "LC" } }

/-- `exOracle` with a throwing TypeScript validator. -/
def exOracleThrow : StepOracle :=
  { exOracle with validateOutcome := .error () }

/-- One driver iteration (`executeStep` on the state, no context update). -/
def exStep (s : WorkflowState) (o : StepOracle) : WorkflowState :=
  (executeStep s none o).state

/-- The oracle sequence of the retry-overflow trace: blueprint, planning,
design, then three generate/validate-fail rounds reaching
`retryCount = maxRetries`, one more generate, and a validate whose
validator throws over code with no `figma.` call. -/
def exOverflowOracles : List StepOracle :=
  [exOracle, exOracle, exOracle, exOracle, exOracle, exOracle, exOracle,
   exOracle, exOracle, exOracle, exOracleThrow]

/-- The final state of the retry-overflow trace. -/
def exOverflowFinal : WorkflowState :=
  exOverflowOracles.foldl exStep (createInitialState "p" none none none 0)

/-- Two modify TODOs sharing one explicit target node id. -/
def exDoubleTodos : List TodoItem :=
  [exTodo "t1" "modify" (some "n1"), exTodo "t2" "modify" (some "n1")]

/-- Matcher inputs where node `n1` was updated with a `text` change. -/
def exDoubleCtx : VerifyCtx :=
  { planTodoMap := mapOfPairs (exDoubleTodos.map (fun t => (t.id, t)))
    designTodoMap := []
    defaultScenarioId := some "default"
    createdNodes := []
    updatedNodes := [exUpdated "n1" "N" ["text"]]
    deletedNodeIds := [] }

/-- Matcher inputs for the amended-claim witness: one delete TODO whose
target was deleted and two create TODOs over one created node. -/
def exMixedTodos : List TodoItem :=
  [exTodo "t1" "delete" (some "d1"), exTodo "t2" "create" (some "c1"),
   exTodo "t3" "create" (some "c1")]

/-- Matcher context for `exMixedTodos`. -/
def exMixedCtx : VerifyCtx :=
  { planTodoMap := mapOfPairs (exMixedTodos.map (fun t => (t.id, t)))
    designTodoMap := []
    defaultScenarioId := some "default"
    createdNodes := [exCreated "c1" "C"]
    updatedNodes := []
    deletedNodeIds := ["d1"] }

/-- A mixed four-entry error history (each category at most twice). -/
def exMixedHistory4 : List ErrorRecord :=
  [{ code := "", errorMessage := "e1", errorType := "planning", timestamp := 1 },
   { code := "", errorMessage := "e2", errorType := "figma-design", timestamp := 2 },
   { code := "", errorMessage := "e3", errorType := "generation", timestamp := 3 },
   { code := "", errorMessage := "e4", errorType := "validation", timestamp := 4 }]

/-- A state entering its fifth `handleError` with four mixed recorded
errors and a fresh execution-category error. -/
def exFifthErrorState : WorkflowState :=
  { createInitialState "p" none none none 0 with
    currentStep := "handleError"
    errorHistory := exMixedHistory4
    error := some "실행 오류" }

/-- A mixed six-entry error history (each category at most twice). -/
def exSixthErrorHistory : List ErrorRecord :=
  exMixedHistory4 ++
    [{ code := "", errorMessage := "e5", errorType := "execution", timestamp := 5 },
     { code := "", errorMessage := "e6", errorType := "unknown", timestamp := 6 }]

/-- Verify-step state whose plan has an empty TODO list but whose report
created a node. -/
def exEmptyTodoVerifyState : WorkflowState :=
  exVerifyState [] (exReport [exCreated "n1" "X"] [] [])

/-- Verify-step state with one TODO that the report did not realize. -/
def exMissingVerifyState : WorkflowState :=
  exVerifyState [exTodo "t1" "create" none] (exReport [] [] [])

/-- A state at the validate step holding generated code, at the retry
budget. -/
def exValidateState : WorkflowState :=
  { createInitialState "p" none none none 0 with
    currentStep := "validate"
    retryCount := 3
    generatedCode := some "doSomething();"
    generation := some (exGeneration "doSomething();") }

/-- A state whose `currentStep` is not one of the enumerated step names. -/
def exBogusStepState : WorkflowState :=
  { createInitialState "p" none none none 0 with currentStep := "bogus-step" }

/-- The witness AST for the validator claim: the alpha color literal next
to an in-range color literal and a valid API access. -/
def exAlphaAst : Ast :=
  .node [.figmaAccess "createFrame" [], .objLit alphaColorProps [],
         .objLit [.assign "r" (some 1), .assign "g" (some 1), .assign "b" (some 1)] []]

/-! # Theorems -/

set_option maxRecDepth 1000000

/-- `ratLtB` decides `<` on `ℚ`. -/
theorem ratLtB_iff (a b : ℚ) : ratLtB a b = true ↔ a < b := by
  simp [ratLtB, Rat.lt_def]

/-- `pushThought` changes only `thoughts`. -/
theorem pushThought_fields (s : WorkflowState) (t : String) :
    (pushThought s t).error = s.error ∧
    (pushThought s t).errorHistory = s.errorHistory ∧
    (pushThought s t).generatedCode = s.generatedCode ∧
    (pushThought s t).retryCount = s.retryCount ∧
    (pushThought s t).maxRetries = s.maxRetries := by
  simp [pushThought]

/-- `clearRequestedContext` changes only `requestedContext`. -/
theorem clearRequestedContext_fields (s : WorkflowState) :
    (clearRequestedContext s).error = s.error ∧
    (clearRequestedContext s).errorHistory = s.errorHistory ∧
    (clearRequestedContext s).generatedCode = s.generatedCode ∧
    (clearRequestedContext s).retryCount = s.retryCount ∧
    (clearRequestedContext s).maxRetries = s.maxRetries := by
  simp [clearRequestedContext]

/-- C3 counterexample: a fifth `handleError` invocation over a mixed
four-entry history (so five recorded errors, no category more than twice)
classifies the pattern as `isolated_error` — not `persistent_failures` —
and retries at `planning` instead of aborting. -/
theorem c3_five_mixed_errors_not_persistent :
    (handleError exFifthErrorState 5).errorHistory.length = 5 ∧
    analyzeErrorPattern ((handleError exFifthErrorState 5).errorHistory) =
      "isolated_error" ∧
    (handleError exFifthErrorState 5).currentStep = "planning" ∧
    (handleError exFifthErrorState 5).isComplete = false := by
  decide

/-- C3 (amended): the classifier returns `persistent_failures` — and the
strategy selector then picks `abort` regardless of the current error's
category and retry count — only once the recorded history holds MORE than
five errors (six handleError invocations) of mixed categories (no category
on more than two of them). -/
theorem c3_six_mixed_errors_abort (errorHistory : List ErrorRecord)
    (h6 : 5 < errorHistory.length)
    (hmix : ∀ c ∈ errorHistory.map (fun e => e.errorType),
      (errorHistory.filter (fun e => e.errorType = c)).length ≤ 2) :
    analyzeErrorPattern errorHistory = "persistent_failures" ∧
    ∀ errorType retryCount,
      determineRecoveryStrategy errorType retryCount
        (analyzeErrorPattern errorHistory) = "abort" := by
  have hpattern : analyzeErrorPattern errorHistory = "persistent_failures" := by
    match hlast : errorHistory.getLast? with
    | none =>
      have hnil : errorHistory = [] := List.getLast?_eq_none_iff.mp hlast
      simp [hnil] at h6
    | some lastError =>
      have hmemL : lastError ∈ errorHistory := by
        obtain ⟨hne, heq⟩ := List.mem_getLast?_eq_getLast
          (show lastError ∈ errorHistory.getLast? from Option.mem_def.mpr hlast)
        exact heq ▸ List.getLast_mem hne
      have hmem : lastError.errorType ∈ errorHistory.map (fun e => e.errorType) :=
        List.mem_map.mpr ⟨_, hmemL, rfl⟩
      have hcount := hmix _ hmem
      have hred : analyzeErrorPattern errorHistory =
          (if (errorHistory.filter
                (fun e => e.errorType = lastError.errorType)).length > 2 then
             "recurring_error"
           else if errorHistory.length > 5 then "persistent_failures"
           else "isolated_error") := by
        unfold analyzeErrorPattern
        rw [hlast]
      rw [hred, if_neg (by omega), if_pos (by omega)]
  refine ⟨hpattern, fun errorType retryCount => ?_⟩
  rw [hpattern]
  unfold determineRecoveryStrategy
  simp

/-- C3 witness: six mixed errors (each category at most twice) classify as
`persistent_failures` and abort. -/
theorem c3_six_mixed_errors_abort_witness :
    (5 < exSixthErrorHistory.length ∧
      ∀ c ∈ exSixthErrorHistory.map (fun e => e.errorType),
        (exSixthErrorHistory.filter (fun e => e.errorType = c)).length ≤ 2) ∧
    (analyzeErrorPattern exSixthErrorHistory = "persistent_failures" ∧
      ∀ errorType retryCount,
        determineRecoveryStrategy errorType retryCount
          (analyzeErrorPattern exSixthErrorHistory) = "abort") :=
  ⟨⟨by decide, by decide⟩,
   c3_six_mixed_errors_abort exSixthErrorHistory (by decide) (by decide)⟩

/-- C9: on a state whose `currentStep` is none of the enumerated step
names (and not the empty string, which aliases `product-blueprint`),
`executeStep` does not fail: it records an unknown-step error, moves to
`complete`, marks the state complete and reports `completed = true`. -/
theorem c9_unknown_step_completes (s : WorkflowState)
    (u : Option ContextUpdatePayload) (o : StepOracle)
    (h1 : s.currentStep ∉ knownSteps) (h2 : s.currentStep ≠ "") :
    (executeStep s u o).state.error =
      some ("알 수 없는 스텝입니다: " ++ s.currentStep) ∧
    (executeStep s u o).state.currentStep = "complete" ∧
    (executeStep s u o).state.isComplete = true ∧
    (executeStep s u o).completed = true := by
  have hstep : ∀ t : WorkflowState, t.currentStep = s.currentStep →
      currentStepName t = s.currentStep := by
    intro t ht
    simp [currentStepName, ht, h2]
  simp only [knownSteps, List.mem_cons, List.not_mem_nil, or_false, not_or] at h1
  obtain ⟨n1, n2, n3, n4, n5, n6, n7, n8, n9⟩ := h1
  unfold executeStep
  have hmid : ∀ t : WorkflowState, t.currentStep = s.currentStep → True := fun _ _ => trivial
  cases u with
  | none =>
    simp only [ensureStateDefaults, cloneRequestedContext]
    rw [hstep _ rfl]
    simp [n1, n2, n3, n4, n5, n6, n7, n8, n9, appendRunLog]
  | some upd =>
    simp only [ensureStateDefaults, cloneRequestedContext]
    have hcs : (applyContextUpdate { s with requestedContext := s.requestedContext } upd).currentStep = s.currentStep := rfl
    rw [hstep _ hcs]
    simp only [n1, n2, n3, n4, n5, n6, n7, n8, n9, if_false]
    simp [appendRunLog, n1, n2, n3, n4, n5, n6, n7, n8, n9]

/-- A match-free scan region leaves `replaceTokenConstGo` emitting its
input verbatim. -/
theorem replaceTokenConstGo_noMatch (name value : String) :
    ∀ (rest : List Char) (fuel : Nat) (acc : List Char),
      anySuffix (fun suf => (tryTokenConstAt name suf).isSome) rest = false →
      replaceTokenConstGo name value fuel acc rest = acc.reverse ++ rest := by
  intro rest
  induction rest with
  | nil =>
    intro fuel acc _
    cases fuel <;> simp [replaceTokenConstGo]
  | cons c cs ih =>
    intro fuel acc h
    simp only [anySuffix, Bool.or_eq_false_iff] at h
    cases fuel with
    | zero => simp [replaceTokenConstGo]
    | succ f =>
      unfold replaceTokenConstGo
      rw [show tryTokenConstAt name (c :: cs) = none from
        Option.not_isSome_iff_eq_none.mp (by simp [h.1])]
      rw [ih f (c :: acc) h.2]
      simp

/-- One disabled replacement pass is the identity. -/
theorem replaceTokenConst_noMatch (name value : String) (code : String)
    (h : hasTokenConst name code = false) :
    replaceTokenConst name value code = code := by
  unfold replaceTokenConst
  rw [replaceTokenConstGo_noMatch name value code.data _ [] h]
  simp

/-- C10: `applyCodeGuards` is the identity on every script without an
`.insertChild(` call and without any of the three placeholder
`const ..._COLLECTION_KEY = "..."` declarations. -/
theorem c10_applyCodeGuards_identity (code : String)
    (h1 : strContains code ".insertChild(" = false)
    (h2 : ∀ t ∈ tokenConstants, hasTokenConst t.1 code = false) :
    applyCodeGuards code = code := by
  have hTheme := h2 _ (show ("THEME_COLLECTION_KEY", "39e0c2b9cd40942595f053c590c74e1123f4e317") ∈ tokenConstants by decide)
  have hRadius := h2 _ (show ("RADIUS_COLLECTION_KEY", "8e172dafc41cff80fc32c6ef5b2519ea51091ff7") ∈ tokenConstants by decide)
  have hPrim := h2 _ (show ("PRIMITIVE_COLLECTION_KEY", "d6673925cad31c3f25349c1469ca4288495979e2") ∈ tokenConstants by decide)
  unfold applyCodeGuards
  by_cases hempty : code = ""
  · simp [hempty]
  · rw [if_neg hempty]
    simp only [h1, Bool.false_eq_true, if_false, tokenConstants, List.foldl]
    rw [replaceTokenConst_noMatch _ _ _ hTheme,
        replaceTokenConst_noMatch _ _ _ hRadius,
        replaceTokenConst_noMatch _ _ _ hPrim]

/-- C10 witness: a concrete guard-free script is returned unchanged. -/
theorem c10_applyCodeGuards_identity_witness :
    (strContains "const x = figma.createFrame();" ".insertChild(" = false ∧
      ∀ t ∈ tokenConstants,
        hasTokenConst t.1 "const x = figma.createFrame();" = false) ∧
    applyCodeGuards "const x = figma.createFrame();" =
      "const x = figma.createFrame();" :=
  ⟨⟨by decide, by decide⟩,
   c10_applyCodeGuards_identity "const x = figma.createFrame();" (by decide)
     (by decide)⟩

/-- C1: entering `validate` with `retryCount = maxRetries` (and generated
code present), any defect-finding validation — the normal TypeScript path
or the fallback pattern check used when the validator throws — moves the
state to the `error`/`handleError` path and never back to `generate`. -/
theorem c1_validate_at_budget_never_regenerates (s : WorkflowState)
    (code : String) (tsOutcome : Except Unit TsValidationResult) (now : Nat)
    (hcode : strT s.generatedCode = some code)
    (hgen : s.generation.isSome = true)
    (hretry : s.retryCount = s.maxRetries)
    (hdefect : validationFindsDefects code tsOutcome) :
    (validateCode s tsOutcome now).currentStep = "error" ∧
    (validateCode s tsOutcome now).currentStep ≠ "generate" := by
  obtain ⟨g, hg⟩ := Option.isSome_iff_exists.mp hgen
  have key : (validateCode s tsOutcome now).currentStep = "error" := by
    simp only [validateCode]
    split
    · rename_i code' g' hx1 hx2
      have hxx : some code = some code' := by rw [← hcode]; exact hx1
      cases Option.some.inj hxx
      cases tsOutcome with
      | ok tsValidation =>
        simp only [validationFindsDefects] at hdefect
        have hIsValid : (tsValidation.success &&
            decide ((validateFigmaApi code).validCalls.length > 0) &&
            decide ((validateFigmaApi code).invalidCalls.length = 0)) = false := by
          by_contra hx
          rw [Bool.not_eq_false] at hx
          simp only [Bool.and_eq_true, decide_eq_true_eq] at hx
          exact hdefect ⟨hx.1.1, hx.1.2, hx.2⟩
        simp only [hIsValid, Bool.false_eq_true, if_false]
        split
        case isTrue hlt =>
          have hlt' : s.retryCount < s.maxRetries := hlt
          omega
        case isFalse => rfl
      | error e =>
        simp only [validationFindsDefects] at hdefect
        split
        · rename_i ts hts
          exact Except.noConfusion hts
        · rename_i e' hts
          split
          case isTrue hzero =>
            have hzero' : (fallbackValidationErrors code).length = 0 := hzero
            exact absurd (List.length_eq_zero.mp hzero') hdefect
          case isFalse =>
            split
            case isTrue hlt =>
              have hlt' : s.retryCount + 1 < s.maxRetries := hlt
              omega
            case isFalse => rfl
    · rename_i hnone
      exact (hnone code g hcode hg).elim
  exact ⟨key, by rw [key]; decide⟩

/-- C1 witness: at `retryCount = maxRetries = 3`, a failing TypeScript
validation transitions to `error`. -/
theorem c1_validate_at_budget_never_regenerates_witness :
    (strT exValidateState.generatedCode = some "doSomething();" ∧
      exValidateState.generation.isSome = true ∧
      exValidateState.retryCount = exValidateState.maxRetries ∧
      validationFindsDefects "doSomething();" exOracle.validateOutcome) ∧
    ((validateCode exValidateState exOracle.validateOutcome 9).currentStep = "error" ∧
      (validateCode exValidateState exOracle.validateOutcome 9).currentStep ≠ "generate") :=
  ⟨⟨by decide, by decide, by decide, by decide⟩,
   c1_validate_at_budget_never_regenerates exValidateState "doSomething();"
     exOracle.validateOutcome 9 (by decide) (by decide) (by decide) (by decide)⟩

/-- C9 witness: a concrete bogus step name completes with the error set. -/
theorem c9_unknown_step_completes_witness :
    ("bogus-step" ∉ knownSteps ∧ "bogus-step" ≠ "") ∧
    ((executeStep exBogusStepState none exOracle).state.error =
        some ("알 수 없는 스텝입니다: " ++ "bogus-step") ∧
      (executeStep exBogusStepState none exOracle).state.currentStep = "complete" ∧
      (executeStep exBogusStepState none exOracle).state.isComplete = true ∧
      (executeStep exBogusStepState none exOracle).completed = true) :=
  ⟨⟨by decide, by decide⟩,
   c9_unknown_step_completes exBogusStepState none exOracle (by decide) (by decide)⟩

/-- `setAdd` adds its element. -/
theorem setAdd_contains_self (s : List String) (x : String) :
    (setAdd s x).contains x = true := by
  simp only [setAdd]
  split
  · assumption
  · simp

/-- `setAdd` keeps existing elements. -/
theorem setAdd_contains_mono (s : List String) (y x : String)
    (h : s.contains x = true) : (setAdd s y).contains x = true := by
  simp only [setAdd]
  split
  · exact h
  · have hx : x ∈ s := by simpa using h
    simp [hx]

/-- The matcher branch logic never touches the evaluations list. -/
theorem processTodoCore_evaluations (ctx : VerifyCtx) (acc : MatchAccum)
    (todo : TodoItem) :
    (processTodoCore ctx acc todo).1.evaluations = acc.evaluations := by
  simp only [processTodoCore, recordMatchAccum]
  repeat' split
  all_goals try rfl
  all_goals rename_i done heq
  all_goals repeat' split at heq
  all_goals first
    | exact Option.noConfusion heq
    | (injection heq with h2; subst h2; rfl)

/-- The matcher branch logic only grows `assignedNodeIds`. -/
theorem processTodoCore_assigned_mono (ctx : VerifyCtx) (acc : MatchAccum)
    (todo : TodoItem) (x : String) (h : acc.assignedNodeIds.contains x = true) :
    (processTodoCore ctx acc todo).1.assignedNodeIds.contains x = true := by
  simp only [processTodoCore, recordMatchAccum]
  repeat' split
  all_goals try exact h
  all_goals try (simp only [if_true]; exact setAdd_contains_mono _ _ _ h)
  all_goals rename_i done heq
  all_goals repeat' split at heq
  all_goals first
    | exact Option.noConfusion heq
    | (injection heq with h2; subst h2; first
        | exact h
        | (simp only [if_true]; exact setAdd_contains_mono _ _ _ h))

/-- A matched `delete` TODO's node id is an element of `deletedNodeIds`. -/
theorem processTodoCore_delete (ctx : VerifyCtx) (acc : MatchAccum)
    (todo : TodoItem) (out : MatchAccum × Bool × Option String × String)
    (hout : processTodoCore ctx acc todo = out)
    (hdel : todo.type = "delete") (hm : out.2.1 = true) :
    ∃ t, out.2.2.1 = some t ∧ ctx.deletedNodeIds.contains t = true := by
  simp only [processTodoCore] at hout
  rw [if_pos hdel] at hout
  repeat' split at hout
  all_goals subst hout
  all_goals first
    | exact ⟨_, rfl, by assumption⟩
    | simp at hm

/-- A matched create-branch TODO picks a node id that was still unassigned
and locks it into `assignedNodeIds`. -/
theorem processTodoCore_create (ctx : VerifyCtx) (acc : MatchAccum)
    (todo : TodoItem) (out : MatchAccum × Bool × Option String × String)
    (hout : processTodoCore ctx acc todo = out)
    (hcr : isCreateBranch todo = true) (hm : out.2.1 = true) :
    ∃ t, out.2.2.1 = some t ∧ acc.assignedNodeIds.contains t = false ∧
      out.1.assignedNodeIds = setAdd acc.assignedNodeIds t := by
  simp only [isCreateBranch, Bool.and_eq_true, Bool.not_eq_true',
    decide_eq_false_iff_not] at hcr
  obtain ⟨⟨hd, hmo⟩, hst⟩ := hcr
  simp only [processTodoCore] at hout
  rw [if_neg hd] at hout
  rw [if_neg (by simp [hmo, hst])] at hout
  split at hout
  · rename_i done heq
    subst hout
    split at heq
    · rename_i nm hnm
      split at heq
      · rename_i c hcm
        injection heq with heq2
        subst heq2
        have hnotass : acc.assignedNodeIds.contains c.id = false := by
          split at hcm
          · rename_i c2 hhead
            injection hcm with hcm2
            subst hcm2
            have hmem := List.mem_of_mem_head? (Option.mem_def.mpr hhead)
            have hpred := List.of_mem_filter hmem
            simp only [Bool.and_eq_true, Bool.not_eq_true'] at hpred
            exact hpred.1.2
          · have hpred := List.find?_some hcm
            simp only [Bool.and_eq_true, Bool.not_eq_true'] at hpred
            exact hpred.1
        exact ⟨c.id, rfl, hnotass, by simp [recordMatchAccum]⟩
      · exact Option.noConfusion heq
    · exact Option.noConfusion heq
  · rename_i heq
    split at hout
    · rename_i t ht
      split at hout
      · rename_i d hfind
        split at hout
        · rename_i hna
          subst hout
          refine ⟨d.id, rfl, ?_, by simp [recordMatchAccum]⟩
          simpa using hna
        · subst hout; simp at hm
      · subst hout; simp at hm
    · subst hout; simp at hm

/-- One matcher iteration preserves the loop invariant. -/
theorem processTodo_inv (ctx : VerifyCtx) (acc : MatchAccum) (todo : TodoItem)
    (h : MatcherInv ctx acc) : MatcherInv ctx (processTodo ctx acc todo) := by
  obtain ⟨hds, hlock, hpw⟩ := h
  have hfr := processTodoCore_evaluations ctx acc todo
  have hmono := processTodoCore_assigned_mono ctx acc todo
  have hmemsplit : ∀ ev, ev ∈ (processTodo ctx acc todo).evaluations →
      ev ∈ acc.evaluations ∨
        ev = { todo := todo, matched := (processTodoCore ctx acc todo).2.1,
               reason := (processTodoCore ctx acc todo).2.2.2,
               matchedNodeId := (processTodoCore ctx acc todo).2.2.1 } := by
    intro ev hev
    simp only [processTodo, hfr, List.mem_append, List.mem_singleton] at hev
    exact hev
  refine ⟨?_, ?_, ?_⟩
  · intro ev hev
    rcases hmemsplit ev hev with hold | hnew
    · exact hds ev hold
    · subst hnew
      intro hty hmtch
      exact processTodoCore_delete ctx acc todo _ rfl hty hmtch
  · intro ev hev
    rcases hmemsplit ev hev with hold | hnew
    · intro h1 h2
      obtain ⟨t, ht, hc⟩ := hlock ev hold h1 h2
      exact ⟨t, ht, hmono t hc⟩
    · subst hnew
      intro h1 h2
      obtain ⟨t, ht, hna, hset⟩ := processTodoCore_create ctx acc todo _ rfl h1 h2
      refine ⟨t, ht, ?_⟩
      show (processTodoCore ctx acc todo).1.assignedNodeIds.contains t = true
      rw [hset]
      exact setAdd_contains_self _ _
  · show ((processTodoCore ctx acc todo).1.evaluations ++ [_]).Pairwise createDistinct
    rw [hfr]
    refine List.pairwise_append.mpr ⟨hpw, List.pairwise_singleton _ _, ?_⟩
    intro a hamem b hbmem
    rw [List.mem_singleton] at hbmem
    subst hbmem
    intro ha1 ha2 hb1 hb2
    obtain ⟨t, ht, hna, hset⟩ := processTodoCore_create ctx acc todo _ rfl hb1 hb2
    obtain ⟨u, hu, hcu⟩ := hlock a hamem ha1 ha2
    rw [hu]
    show some u ≠ (processTodoCore ctx acc todo).2.2.1
    rw [ht]
    intro hcontra
    injection hcontra with hut
    subst hut
    rw [hna] at hcu
    exact Bool.noConfusion hcu

/-- The matcher's final accumulator satisfies the loop invariant. -/
theorem runMatcher_inv (ctx : VerifyCtx) (todos : List TodoItem) :
    MatcherInv ctx (runMatcher ctx todos) := by
  have key : ∀ acc, MatcherInv ctx acc →
      MatcherInv ctx (todos.foldl (processTodo ctx) acc) := by
    induction todos with
    | nil => intro acc h; exact h
    | cons t ts ih => intro acc h; exact ih _ (processTodo_inv ctx acc t h)
  exact key emptyAccum ⟨by simp [emptyAccum], by simp [emptyAccum],
    by simp [emptyAccum]⟩

/-- C2 counterexample: two distinct `modify` TODOs that both name updated
node `n1` as their explicit target are BOTH recorded as matched to `n1` —
the direct-target modify path never consults `nodeIdToModifyTodo`, so node
ids can be double-claimed, contradicting the claim's universal
at-most-one-TODO-per-node attribution. -/
theorem c2_matcher_double_claims_updated_node :
    ((runMatcher exDoubleCtx exDoubleTodos).evaluations.map
        (fun ev => (ev.todo.id, ev.matched, ev.matchedNodeId))) =
      [("t1", true, some "n1"), ("t2", true, some "n1")] := by decide

/-- C2 (amended): for every matcher input, (a) a `delete` TODO is recorded
as matched only with a node id that is an element of the report's
`deletedNodeIds`, and (b) TODOs taking the create branch are attributed
pairwise-distinct node ids (create matches lock node ids via
`assignedNodeIds`); the at-most-one-TODO-per-node guarantee does NOT
extend to `modify`/`style` TODOs with a shared explicit target. -/
theorem c2_matcher_delete_sound_and_create_injective (ctx : VerifyCtx)
    (todos : List TodoItem) :
    (∀ ev ∈ (runMatcher ctx todos).evaluations, ev.todo.type = "delete" →
        ev.matched = true →
        ∃ t, ev.matchedNodeId = some t ∧ ctx.deletedNodeIds.contains t = true) ∧
    (runMatcher ctx todos).evaluations.Pairwise (fun e1 e2 =>
      isCreateBranch e1.todo = true → e1.matched = true →
      isCreateBranch e2.todo = true → e2.matched = true →
      e1.matchedNodeId ≠ e2.matchedNodeId) :=
  ⟨(runMatcher_inv ctx todos).1, (runMatcher_inv ctx todos).2.2⟩

end FigmaSpec
